import Mathlib

/-!
# FSA IPC client driver (libdecaf `ios::fs`) and its wire layout (`coreinit`)

Shallow embedding of
* `src/libdecaf/src/modules/coreinit/coreinit_fsa_request.h` (packed request layout and its
  `CHECK_OFFSET` / `CHECK_SIZE` static assertions), and
* `src/libdecaf/src/ios/fs/ios_fs_fsa_ipc.cpp` (`allocFsaIpcData`, `freeFsaIpcData`,
  `FSAOpenFile`, `FSACloseFile`, `FSAReadFile`, `FSAWriteFile`), and
* `src/modules/gx2/null/gx2null_displaylist.cpp` (the display-list recorder of the null GX2
  backend, namespace `gx2` below).

The kernel primitives `IOS_HeapAlloc`, `IOS_HeapFree`, `IOS_Ioctl`, `IOS_Ioctlv` are external
collaborators: they are arbitrary functions (`Env`), and every call made to them is appended
to a trace kept in the `World`.
-/

namespace coreinit

/-! ## Packed struct layout (`#pragma pack(push, 1)`) -/

/-- One member of a packed struct: its name and its width in bytes. -/
structure Member where
  name : String
  width : Nat

/-- Size of a packed struct: the widths of its members added up (no implicit padding). -/
def sizeofStruct : List Member → Nat
  | [] => 0
  | m :: ms => m.width + sizeofStruct ms

/-- Offset of a member of a packed struct: the widths of the members before it added up. -/
def offsetOf : List Member → String → Option Nat
  | [], _ => none
  | m :: ms, n => if m.name = n then some 0 else (offsetOf ms n).map (fun o => m.width + o)

/-- Size of an anonymous union: the size of its largest member. -/
def sizeofUnion : List Member → Nat
  | [] => 0
  | m :: ms => max m.width (sizeofUnion ms)

/-- The static assertion `CHECK_SIZE(Type, size)`. -/
def CHECK_SIZE (type : List Member) (size : Nat) : Bool :=
  sizeofStruct type == size

/-- Width of `be_val<uint32_t>`. -/
def sizeof_uint32 : Nat := 4

/-- Modelled from the spec: `FSMaxPathLength` is declared in coreinit_fs.h, which is not under
src/. A path field is `FSMaxPathLength + 1` chars, and `CHECK_SIZE(FSARequestChangeDir, 0x280)`
fixes that to 0x280 bytes, hence 0x27F. -/
def FSMaxPathLength : Nat := 0x27F

/-- Modelled from the spec: `FSFileHandle` is declared in coreinit_fs.h, which is not under src/;
a file handle is a 4-byte big-endian scalar (`CHECK_SIZE(FSARequestCloseFile, 0x4)`). -/
def sizeof_FSFileHandle : Nat := 4

/-- Modelled from the spec: `FSFilePosition` is declared in coreinit_fs.h, which is not under
src/; a 4-byte big-endian scalar (`pos` sits at 0x0C and `handle` at 0x10 in the read request). -/
def sizeof_FSFilePosition : Nat := 4

/-- Modelled from the spec: `FSQueryInfoType` is declared in coreinit_enum.h, which is not under
src/; a 4-byte big-endian scalar (`type` at 0x280, struct size 0x284). -/
def sizeof_FSQueryInfoType : Nat := 4

/-- Modelled from the spec: `FSReadFlag` is declared in coreinit_enum.h, which is not under src/;
a 4-byte big-endian scalar (`readFlags` at 0x14, struct size 0x18). -/
def sizeof_FSReadFlag : Nat := 4

/-- Layout of `struct FSARequestCloseFile`. -/
def FSARequestCloseFile : List Member :=
  [⟨"handle", sizeof_FSFileHandle⟩]

/-- Layout of `struct FSARequestChangeDir`. -/
def FSARequestChangeDir : List Member :=
  [⟨"path", FSMaxPathLength + 1⟩]

/-- Layout of `struct FSARequestGetInfoByQuery`. -/
def FSARequestGetInfoByQuery : List Member :=
  [⟨"path", FSMaxPathLength + 1⟩, ⟨"type", sizeof_FSQueryInfoType⟩]

/-- Layout of `struct FSARequestGetPosFile`. -/
def FSARequestGetPosFile : List Member :=
  [⟨"handle", sizeof_FSFileHandle⟩]

/-- Layout of `struct FSARequestOpenFile`. -/
def FSARequestOpenFile : List Member :=
  [⟨"path", FSMaxPathLength + 1⟩, ⟨"mode", 0x10⟩, ⟨"unk0x290", sizeof_uint32⟩,
   ⟨"unk0x294", sizeof_uint32⟩, ⟨"unk0x298", sizeof_uint32⟩]

/-- Layout of `struct FSARequestReadFile`. -/
def FSARequestReadFile : List Member :=
  [⟨"buffer", 4⟩, ⟨"size", sizeof_uint32⟩, ⟨"count", sizeof_uint32⟩,
   ⟨"pos", sizeof_FSFilePosition⟩, ⟨"handle", sizeof_FSFileHandle⟩,
   ⟨"readFlags", sizeof_FSReadFlag⟩]

/-- Layout of `struct FSARequestRemove`. -/
def FSARequestRemove : List Member :=
  [⟨"path", FSMaxPathLength + 1⟩]

/-- Layout of `struct FSARequestSetPosFile`. -/
def FSARequestSetPosFile : List Member :=
  [⟨"handle", sizeof_FSFileHandle⟩, ⟨"pos", sizeof_FSFilePosition⟩]

/-- Members of the anonymous union inside `struct FSARequest`; the last one is `UNKNOWN(0x51C)`. -/
def FSARequestPayload : List Member :=
  [⟨"closeFile", sizeofStruct FSARequestCloseFile⟩,
   ⟨"changeDir", sizeofStruct FSARequestChangeDir⟩,
   ⟨"getInfoByQuery", sizeofStruct FSARequestGetInfoByQuery⟩,
   ⟨"getPosFile", sizeofStruct FSARequestGetPosFile⟩,
   ⟨"openFile", sizeofStruct FSARequestOpenFile⟩,
   ⟨"readFile", sizeofStruct FSARequestReadFile⟩,
   ⟨"remove", sizeofStruct FSARequestRemove⟩,
   ⟨"setPosFile", sizeofStruct FSARequestSetPosFile⟩,
   ⟨"UNKNOWN", 0x51C⟩]

/-- Layout of `struct FSARequest`: the word `unk0x00`, then the payload union. -/
def FSARequest : List Member :=
  [⟨"unk0x00", sizeof_uint32⟩, ⟨"payload", sizeofUnion FSARequestPayload⟩]

end coreinit

namespace ios.fs

/-! ## Declarations the driver uses -/

/-- Modelled from the spec: `FSACommand` is declared in ios_fs_fsa_types.h, which is not under
src/. Spec §6 names the command codes; their numeric values are not used by the driver. -/
inductive FSACommand where
  | OpenFile
  | CloseFile
  | ReadFile
  | WriteFile
  | ChangeDir
  | Remove
  | GetPosFile
  | SetPosFile
  | GetInfoByQuery
  deriving DecidableEq, Repr

/-- Modelled from the spec: ios_fs_fsa_request.h is not under src/; the IOS-side `FSARequest` is
the same wire block as coreinit's (`CHECK_SIZE(FSARequest, 0x520)`), so `sizeof(FSARequest)` is
computed from that layout. -/
def sizeof_FSARequest : Nat := coreinit.sizeofStruct coreinit.FSARequest

/-- Offset of the payload union inside `FSARequest`: it follows the word `unk0x00`. -/
def payload : Nat := coreinit.sizeof_uint32

/-- Layout of `struct FSAIpcData` (packed), given the sizes of the member types that are declared
outside src/: `FSAResponse`, `IoctlVec`, `FSACommand`, `kernel::ResourceHandleId`. The last member
is `UNKNOWN(0x828 - 0x7EB)`. -/
def FSAIpcDataLayout (response ioctlVec command resourceHandle : Nat) : List coreinit.Member :=
  [⟨"request", sizeof_FSARequest⟩, ⟨"response", response⟩, ⟨"vecs", 4 * ioctlVec⟩,
   ⟨"command", command⟩, ⟨"resourceHandle", resourceHandle⟩, ⟨"UNKNOWN", 0x828 - 0x7EB⟩]

/-- The static assertion `CHECK_SIZE(FSAIpcData, 0x828)` of ios_fs_fsa_ipc.cpp. -/
def CHECK_SIZE_FSAIpcData (response ioctlVec command resourceHandle : Nat) : Prop :=
  coreinit.CHECK_SIZE (FSAIpcDataLayout response ioctlVec command resourceHandle) 0x828 = true

/-- Constants and type sizes that the driver takes from headers that are not under src/
(ios_fs_fsa_types.h, ios_fs_fsa_response.h, ios_kernel_heap.h, ios_kernel_ipc.h). They are
parameters of the embedding. The one constraint on them that the source itself states is the
static assertion `CHECK_SIZE(FSAIpcData, 0x828)`. -/
structure Decls where
  OK : Int
  OutOfResources : Int
  InvalidPath : Int
  InvalidParam : Int
  InvalidBuffer : Int
  CrossProcessHeapId : Nat
  sizeof_FSAResponse : Nat
  sizeof_IoctlVec : Nat
  sizeof_FSACommand : Nat
  sizeof_ResourceHandleId : Nat
  checkSize :
    CHECK_SIZE_FSAIpcData sizeof_FSAResponse sizeof_IoctlVec sizeof_FSACommand
      sizeof_ResourceHandleId

/-- Modelled from the spec: the values of the `FSAStatus` enumerators are declared outside src/.
Spec §6 and §4.4: non-negative is the success domain with `OK` the transport result 0, and the
locally synthesised failures are negative. -/
def Decls.Taxonomy (d : Decls) : Prop :=
  d.OK = 0 ∧ d.OutOfResources < 0 ∧ d.InvalidPath < 0 ∧ d.InvalidParam < 0 ∧ d.InvalidBuffer < 0

/-- The value of `sizeof(FSAIpcData)`. -/
def sizeof_FSAIpcData (d : Decls) : Nat :=
  coreinit.sizeofStruct
    (FSAIpcDataLayout d.sizeof_FSAResponse d.sizeof_IoctlVec d.sizeof_FSACommand
      d.sizeof_ResourceHandleId)

/-! ## Memory and the outside world -/

/-- A scatter-gather descriptor `IoctlVec`; the driver touches its members `paddr` and `len`. -/
structure IoctlVec where
  paddr : Nat
  len : Nat
  deriving DecidableEq, Repr

/-- The part of `FSAResponse` that the driver reads: `response->openFile.handle`. -/
structure FSAResponse where
  openFile_handle : Nat

/-- Contents of one `FSAIpcData` block. `request` is the raw bytes of the `FSARequest` by offset
(each byte a number below 256); the other members are kept typed because their layout is declared
outside src/. -/
structure FSAIpcData where
  request : Nat → Nat
  response : FSAResponse
  vecs : Fin 4 → IoctlVec
  command : Nat
  resourceHandle : Nat
  unknown : Nat → Nat

/-- Physical memory: plain bytes by address (the callers' data buffers) and the contents of the
cross-process heap blocks by block address. -/
structure Memory where
  bytes : Nat → Nat
  ipc : Nat → FSAIpcData

/-- A call made to an external collaborator. Transport calls record the memory they were
submitted with and the result they gave back. -/
inductive Event where
  | HeapAlloc (heapId size : Nat) (block : Option Nat)
  | HeapFree (heapId block : Nat)
  | Ioctl (handle : Nat) (command : FSACommand) (inBuf inLen outBuf outLen : Nat)
      (submitted : Memory) (error : Int)
  | Ioctlv (handle : Nat) (command : FSACommand) (inCount outCount vecs : Nat)
      (submitted : Memory) (error : Int)

/-- State outside the driver: physical memory, the callers' `FSAFileHandle` variables by host
address, the number of live blocks of the cross-process heap, and the calls made so far (oldest
first). -/
structure World where
  mem : Memory
  host : Nat → Nat
  live : Int
  trace : List Event

/-- What a transport call gives back: its signed result and the memory as it left it. -/
structure IoctlReply where
  error : Int
  mem : Memory

/-- The external collaborators, as arbitrary functions of the current world and their arguments:
the heap (`none` is the null pointer) and the flat and vectored transport. -/
structure Env where
  heapAlloc : World → Nat → Nat → Option Nat
  ioctl : World → Nat → FSACommand → Nat → Nat → Nat → Nat → IoctlReply
  ioctlv : World → Nat → FSACommand → Nat → Nat → Nat → IoctlReply

/-- The call `kernel::IOS_HeapAlloc(heapId, size)`. -/
def IOS_HeapAlloc (env : Env) (w : World) (heapId size : Nat) : Option Nat × World :=
  match env.heapAlloc w heapId size with
  | none => (none, { w with trace := w.trace ++ [Event.HeapAlloc heapId size none] })
  | some b =>
    (some b, { w with live := w.live + 1,
                      trace := w.trace ++ [Event.HeapAlloc heapId size (some b)] })

/-- The call `kernel::IOS_HeapFree(heapId, block)`. -/
def IOS_HeapFree (w : World) (heapId block : Nat) : World :=
  { w with live := w.live - 1, trace := w.trace ++ [Event.HeapFree heapId block] }

/-- The call `kernel::IOS_Ioctl(handle, command, inBuf, inLen, outBuf, outLen)`. -/
def IOS_Ioctl (env : Env) (w : World) (handle : Nat) (command : FSACommand)
    (inBuf inLen outBuf outLen : Nat) : Int × World :=
  let r := env.ioctl w handle command inBuf inLen outBuf outLen
  (r.error, { w with mem := r.mem,
                     trace := w.trace ++
                       [Event.Ioctl handle command inBuf inLen outBuf outLen w.mem r.error] })

/-- The call `kernel::IOS_Ioctlv(handle, command, inCount, outCount, vecs)`. -/
def IOS_Ioctlv (env : Env) (w : World) (handle : Nat) (command : FSACommand)
    (inCount outCount vecs : Nat) : Int × World :=
  let r := env.ioctlv w handle command inCount outCount vecs
  (r.error, { w with mem := r.mem,
                     trace := w.trace ++
                       [Event.Ioctlv handle command inCount outCount vecs w.mem r.error] })

/-! ## Byte-level helpers -/

/-- Store the bytes `bs` at offsets `off, off + 1, ...`. -/
def writeBytes (m : Nat → Nat) (off : Nat) (bs : List Nat) : Nat → Nat :=
  fun a => if off ≤ a ∧ a < off + bs.length then bs.getD (a - off) 0 else m a

/-- The bytes `std::strncpy(dst, src, n)` stores at `dst[0], dst[1], ...`, reading `src` from
index `i`: chars are copied until `n` are written or a NUL is met, and the rest is NUL padding. -/
def strncpyBytes (src : Nat → Nat) : Nat → Nat → List Nat
  | 0, _ => []
  | n + 1, i => if src i = 0 then List.replicate (n + 1) 0 else src i :: strncpyBytes src n (i + 1)

/-- The call `std::strncpy(m + dst, src, n)`. -/
def strncpy (m : Nat → Nat) (dst : Nat) (src : Nat → Nat) (n : Nat) : Nat → Nat :=
  fun a => if dst ≤ a ∧ a < dst + n then (strncpyBytes src n 0).getD (a - dst) 0 else m a

/-- Big-endian bytes of a 32-bit value. -/
def be32 (v : Nat) : List Nat :=
  [v / 0x1000000 % 0x100, v / 0x10000 % 0x100, v / 0x100 % 0x100, v % 0x100]

/-- Assignment to a `be2_val<uint32_t>` member at offset `off`. -/
def storeBE32 (m : Nat → Nat) (off v : Nat) : Nat → Nat :=
  writeBytes m off (be32 v)

/-- A `std::string_view`: `size` chars starting at `data()`. `data i` is the char at
`data()[i]`; what lies at index `size` and beyond is whatever follows the view in memory. -/
structure StringView where
  data : Nat → Nat
  size : Nat

/-- The chars a view denotes. -/
def StringView.chars (s : StringView) : List Nat :=
  (List.range s.size).map s.data

/-- Assignment `vecs[i].paddr = a`. -/
def setPaddr (vecs : Fin 4 → IoctlVec) (i : Fin 4) (a : Nat) : Fin 4 → IoctlVec :=
  fun j => if j = i then { vecs j with paddr := a } else vecs j

/-- Assignment `vecs[i].len = n`. -/
def setLen (vecs : Fin 4 → IoctlVec) (i : Fin 4) (n : Nat) : Fin 4 → IoctlVec :=
  fun j => if j = i then { vecs j with len := n } else vecs j

/-- Replace the contents of the heap block at `p`. -/
def World.setIpc (w : World) (p : Nat) (blk : FSAIpcData) : World :=
  { w with mem := { w.mem with ipc := fun q => if q = p then blk else w.mem.ipc q } }

/-- Assignment `*outHandle = v` to the caller's variable at host address `out`. -/
def World.setHost (w : World) (out v : Nat) : World :=
  { w with host := fun q => if q = out then v else w.host q }

/-- A block of `sizeof(FSAIpcData)` zero bytes. -/
def zeroIpcData : FSAIpcData :=
  { request := fun _ => 0
    response := ⟨0⟩
    vecs := fun _ => ⟨0, 0⟩
    command := 0
    resourceHandle := 0
    unknown := fun _ => 0 }

/-! ## The driver -/

/-- The function `allocFsaIpcData(outIpcData)`: returns the status, the value of `*outIpcData`
afterwards, and the world. `outIpcData` is the value of `*outIpcData` before the call. -/
def allocFsaIpcData (d : Decls) (env : Env) (w : World) (outIpcData : Option Nat) :
    Int × Option Nat × World :=
  match IOS_HeapAlloc env w d.CrossProcessHeapId (sizeof_FSAIpcData d) with
  | (none, w1) => (d.OutOfResources, outIpcData, w1)
  | (some buffer, w1) => (d.OK, some buffer, w1.setIpc buffer zeroIpcData)

/-- The function `freeFsaIpcData(ipcData)`. -/
def freeFsaIpcData (d : Decls) (w : World) (ipcData : Nat) : World :=
  IOS_HeapFree w d.CrossProcessHeapId ipcData

/-- The function `FSAOpenFile(resourceHandleId, name, mode, outHandle)`. `outHandle = none` is
the null pointer. The result is `none` when the code dereferences the null `ipcData`. -/
def FSAOpenFile (d : Decls) (env : Env) (w : World) (resourceHandleId : Nat)
    (name mode : StringView) (outHandle : Option Nat) : Option (Int × World) :=
  if name.size = 0 then some (d.InvalidPath, w)
  else if mode.size = 0 then some (d.InvalidParam, w)
  else
    match outHandle with
    | none => some (d.InvalidBuffer, w)
    | some out =>
      match allocFsaIpcData d env w none with
      | (status, ipcData, w1) =>
        if status < d.OK then some (status, w1)
        else
          match ipcData with
          | none => none
          | some p =>
            let blk := w1.mem.ipc p
            let req := strncpy blk.request (payload + 0x0) name.data (coreinit.FSMaxPathLength + 1)
            let req := strncpy req (payload + 0x280) mode.data 0x10
            let req := storeBE32 req (payload + 0x290) 0x60000
            let w2 := w1.setIpc p { blk with request := req }
            match IOS_Ioctl env w2 resourceHandleId FSACommand.OpenFile
                p sizeof_FSARequest (p + sizeof_FSARequest) d.sizeof_FSAResponse with
            | (error, w3) =>
              let w4 := w3.setHost out (w3.mem.ipc p).response.openFile_handle
              some (error, freeFsaIpcData d w4 p)

/-- The function `FSACloseFile(resourceHandleId, fileHandle)`. -/
def FSACloseFile (d : Decls) (env : Env) (w : World) (resourceHandleId fileHandle : Nat) :
    Option (Int × World) :=
  match allocFsaIpcData d env w none with
  | (status, ipcData, w1) =>
    if status < d.OK then some (status, w1)
    else
      match ipcData with
      | none => none
      | some p =>
        let blk := w1.mem.ipc p
        let req := storeBE32 blk.request (payload + 0x0) fileHandle
        let w2 := w1.setIpc p { blk with request := req }
        match IOS_Ioctl env w2 resourceHandleId FSACommand.OpenFile
            p sizeof_FSARequest (p + sizeof_FSARequest) d.sizeof_FSAResponse with
        | (error, w3) => some (error, freeFsaIpcData d w3 p)

/-- The function `FSAReadFile(resourceHandleId, buffer, size, count, fileHandle, readFlags)`. -/
def FSAReadFile (d : Decls) (env : Env) (w : World)
    (resourceHandleId buffer size count fileHandle readFlags : Nat) : Option (Int × World) :=
  match allocFsaIpcData d env w none with
  | (status, ipcData, w1) =>
    if status < d.OK then some (status, w1)
    else
      match ipcData with
      | none => none
      | some p =>
        let blk := w1.mem.ipc p
        let req := storeBE32 blk.request (payload + 0x10) fileHandle
        let req := storeBE32 req (payload + 0x04) size
        let req := storeBE32 req (payload + 0x08) count
        let req := storeBE32 req (payload + 0x14) readFlags
        let vecs := setPaddr blk.vecs 0 p
        let vecs := setLen vecs 0 (sizeof_FSARequest % 2 ^ 32)
        let vecs := setPaddr vecs 1 buffer
        let vecs := setLen vecs 1 (size * count % 2 ^ 32)
        let vecs := setPaddr vecs 2 (p + sizeof_FSARequest)
        let vecs := setLen vecs 2 (d.sizeof_FSAResponse % 2 ^ 32)
        let w2 := w1.setIpc p { blk with request := req, vecs := vecs }
        match IOS_Ioctlv env w2 resourceHandleId FSACommand.ReadFile 1 2
            (p + sizeof_FSARequest + d.sizeof_FSAResponse) with
        | (error, w3) => some (error, freeFsaIpcData d w3 p)

/-- The function `FSAWriteFile(resourceHandleId, buffer, size, count, fileHandle, writeFlags)`.
Modelled from the spec: the member `writeFile` of the IOS-side request is declared outside src/;
the spec gives it the read payload's shape ("write: symmetric"), so its fields sit at the read
payload's offsets. -/
def FSAWriteFile (d : Decls) (env : Env) (w : World)
    (resourceHandleId buffer size count fileHandle writeFlags : Nat) : Option (Int × World) :=
  match allocFsaIpcData d env w none with
  | (status, ipcData, w1) =>
    if status < d.OK then some (status, w1)
    else
      match ipcData with
      | none => none
      | some p =>
        let blk := w1.mem.ipc p
        let req := storeBE32 blk.request (payload + 0x10) fileHandle
        let req := storeBE32 req (payload + 0x04) size
        let req := storeBE32 req (payload + 0x08) count
        let req := storeBE32 req (payload + 0x14) writeFlags
        let vecs := setPaddr blk.vecs 0 p
        let vecs := setLen vecs 0 (sizeof_FSARequest % 2 ^ 32)
        let vecs := setPaddr vecs 1 buffer
        let vecs := setLen vecs 1 (size * count % 2 ^ 32)
        let vecs := setPaddr vecs 2 (p + sizeof_FSARequest)
        let vecs := setLen vecs 2 (d.sizeof_FSAResponse % 2 ^ 32)
        let w2 := w1.setIpc p { blk with request := req, vecs := vecs }
        match IOS_Ioctlv env w2 resourceHandleId FSACommand.WriteFile 2 1
            (p + sizeof_FSARequest + d.sizeof_FSAResponse) with
        | (error, w3) => some (error, freeFsaIpcData d w3 p)

/-! ## Sequences of driver calls -/

/-- One call of a driver, with its arguments. -/
inductive Call where
  | OpenFile (resourceHandleId : Nat) (name mode : StringView) (outHandle : Option Nat)
  | CloseFile (resourceHandleId fileHandle : Nat)
  | ReadFile (resourceHandleId buffer size count fileHandle readFlags : Nat)
  | WriteFile (resourceHandleId buffer size count fileHandle writeFlags : Nat)

/-- Run one driver call. -/
def Call.exec (d : Decls) (env : Env) (w : World) : Call → Option (Int × World)
  | Call.OpenFile rh name mode out => FSAOpenFile d env w rh name mode out
  | Call.CloseFile rh fh => FSACloseFile d env w rh fh
  | Call.ReadFile rh buffer size count fh flags => FSAReadFile d env w rh buffer size count fh flags
  | Call.WriteFile rh buffer size count fh flags =>
    FSAWriteFile d env w rh buffer size count fh flags

/-- Run a sequence of driver calls one after the other. For each call the result lists the status
it returned and the number of live heap blocks at the moment it returned. -/
def run (d : Decls) (env : Env) : World → List Call → Option (List (Int × Int) × World)
  | w, [] => some ([], w)
  | w, c :: cs =>
    match c.exec d env w with
    | none => none
    | some (status, w1) =>
      match run d env w1 cs with
      | none => none
      | some (rs, w2) => some ((status, w1.live) :: rs, w2)

/-- Number of successful heap allocations in a trace. -/
def allocations : List Event → Nat
  | [] => 0
  | Event.HeapAlloc _ _ (some _) :: es => allocations es + 1
  | _ :: es => allocations es

/-- Number of heap frees in a trace. -/
def releases : List Event → Nat
  | [] => 0
  | Event.HeapFree _ _ :: es => releases es + 1
  | _ :: es => releases es

/-- Number of transport invocations (flat or vectored) in a trace. -/
def invocations : List Event → Nat
  | [] => 0
  | Event.Ioctl _ _ _ _ _ _ _ _ :: es => invocations es + 1
  | Event.Ioctlv _ _ _ _ _ _ _ :: es => invocations es + 1
  | _ :: es => invocations es

/-- Scan a trace for the buffer discipline. `held` is the block that is allocated and not yet
freed. A trace passes when no allocation is attempted while a block is held, every free releases
exactly the held block, the transport is only invoked while a block is held, and nothing is held
at the end. -/
def balancedFrom : Option Nat → List Event → Bool
  | held, [] => held.isNone
  | none, Event.HeapAlloc _ _ b :: es => balancedFrom b es
  | some _, Event.HeapAlloc _ _ _ :: _ => false
  | none, Event.HeapFree _ _ :: _ => false
  | some q, Event.HeapFree _ b :: es => b == q && balancedFrom none es
  | none, Event.Ioctl _ _ _ _ _ _ _ _ :: _ => false
  | some q, Event.Ioctl _ _ _ _ _ _ _ _ :: es => balancedFrom (some q) es
  | none, Event.Ioctlv _ _ _ _ _ _ _ :: _ => false
  | some q, Event.Ioctlv _ _ _ _ _ _ _ :: es => balancedFrom (some q) es

/-! ## Concrete instances -/

/-- An instance of the outside declarations: status values in the spec's taxonomy and type sizes
that satisfy `CHECK_SIZE(FSAIpcData, 0x828)`. -/
def mockDecls : Decls :=
  { OK := 0
    OutOfResources := -1
    InvalidPath := -2
    InvalidParam := -3
    InvalidBuffer := -4
    CrossProcessHeapId := 0xCAFF
    sizeof_FSAResponse := 0x293
    sizeof_IoctlVec := 0xC
    sizeof_FSACommand := 4
    sizeof_ResourceHandleId := 4
    checkSize := rfl }

/-- A heap that always hands out the block at 0x1000 and a transport that returns 0 and leaves
memory as it is. -/
def mockEnv : Env :=
  { heapAlloc := fun _ _ _ => some 0x1000
    ioctl := fun w _ _ _ _ _ _ => ⟨0, w.mem⟩
    ioctlv := fun w _ _ _ _ _ => ⟨0, w.mem⟩ }

/-- A heap that is exhausted on every second call made to the outside, and a transport that
fails with -5. -/
def flakyEnv : Env :=
  { heapAlloc := fun w _ _ => if w.trace.length % 2 = 0 then some 0x2000 else none
    ioctl := fun w _ _ _ _ _ _ => ⟨-5, w.mem⟩
    ioctlv := fun w _ _ _ _ _ => ⟨-5, w.mem⟩ }

/-- A world with no call made yet; memory holds 0xAA everywhere (leftover contents). -/
def mockWorld : World :=
  { mem := ⟨fun _ => 0xAA, fun _ => ⟨fun _ => 0xAA, ⟨0xAAAAAAAA⟩, fun _ => ⟨0xAAAAAAAA, 0xAAAAAAAA⟩,
      0xAAAAAAAA, 0xAAAAAAAA, fun _ => 0xAA⟩⟩
    host := fun _ => 0
    live := 0
    trace := [] }

/-- The view of the first `n` chars of a char array; past the array the memory reads as NUL. -/
def viewOf (chars : List Nat) (n : Nat) : StringView :=
  ⟨fun i => chars.getD i 0, n⟩

/-- The calls one driver invocation makes to the outside when its allocation succeeds with block
`p`: the allocation, one transport call `e`, and the free of `p`. -/
def roundTrip (d : Decls) (p : Nat) (e : Event) : List Event :=
  [Event.HeapAlloc d.CrossProcessHeapId (sizeof_FSAIpcData d) (some p), e,
   Event.HeapFree d.CrossProcessHeapId p]

/-- The world a transport call is made in, when the driver started in `w`, its allocation gave
block `p`, and memory is `m` at the time of the call. -/
def atCall (d : Decls) (w : World) (p : Nat) (m : Memory) : World :=
  ⟨m, w.host, w.live + 1,
   w.trace ++ [Event.HeapAlloc d.CrossProcessHeapId (sizeof_FSAIpcData d) (some p)]⟩

/-- Reading a `be2_val<uint32_t>` member at offset `off`: the value of its four big-endian
bytes. -/
def loadBE32 (m : Nat → Nat) (off : Nat) : Nat :=
  m off * 0x1000000 + m (off + 1) * 0x10000 + m (off + 2) * 0x100 + m (off + 3)

/-- A heap that is exhausted, with a transport that returns 0 and leaves memory as it is. -/
def exhaustedEnv : Env :=
  { heapAlloc := fun _ _ _ => none
    ioctl := fun w _ _ _ _ _ _ => ⟨0, w.mem⟩
    ioctlv := fun w _ _ _ _ _ => ⟨0, w.mem⟩ }

/-- A heap that hands out the block at 0x1000 and a flat transport that writes the file handle 7
into the response of the block whose request it is given, and returns 0. -/
def handleEnv : Env :=
  { heapAlloc := fun _ _ _ => some 0x1000
    ioctl := fun w _ _ inBuf _ _ _ =>
      ⟨0, { w.mem with
              ipc := fun q => if q = inBuf then { w.mem.ipc q with response := ⟨7⟩ }
                              else w.mem.ipc q }⟩
    ioctlv := fun w _ _ _ _ _ => ⟨0, w.mem⟩ }

/-- The world `mockWorld` with leftover contents in the callers' variables as well. -/
def staleWorld : World :=
  { mockWorld with host := fun _ => 0xBB }

/-- Memory after `len` bytes of `pattern` have been stored at `dst`. -/
def fillBytes (m : Nat → Nat) (dst len : Nat) (pattern : Nat → Nat) : Nat → Nat :=
  fun a => if dst ≤ a ∧ a < dst + len then pattern (a - dst) else m a

/-- A byte pattern: byte `i` is `i mod 251`. -/
def testPattern (i : Fin 512) : Nat := i.val % 251

/-- A heap that hands out the block at 0x1000 and a vectored transport that fills the region
slot 1 describes with `pattern` and returns 512. The vector array it is given sits at offset
0x520 + 0x293 of its block (the sizes of `mockDecls`). -/
def patternEnv (pattern : Nat → Nat) : Env :=
  { heapAlloc := fun _ _ _ => some 0x1000
    ioctl := fun w _ _ _ _ _ _ => ⟨0, w.mem⟩
    ioctlv := fun w _ _ _ _ vecs =>
      ⟨512, { w.mem with
                bytes := fillBytes w.mem.bytes ((w.mem.ipc (vecs - (0x520 + 0x293))).vecs 1).paddr
                  ((w.mem.ipc (vecs - (0x520 + 0x293))).vecs 1).len pattern }⟩ }

end ios.fs

/-! # The null display-list recorder (`src/modules/gx2/null/gx2null_displaylist.cpp`) -/

namespace gx2

/-- The two globals of the file, host memory by address, and the `memcpy` calls made so far as
(destination, source, byte count), oldest first. A `GX2DisplayList *` is a host address and 0 is
`nullptr`. -/
structure State where
  gCurrentDisplayList : Nat
  gCurrentDisplayListSize : Nat
  mem : Nat → Nat
  copies : List (Nat × Nat × Nat)

/-- The call `memcpy(dst, src, n)`. -/
def memcpy (st : State) (dst src n : Nat) : State :=
  { st with mem := fun a => if dst ≤ a ∧ a < dst + n then st.mem (src + (a - dst)) else st.mem a
            copies := st.copies ++ [(dst, src, n)] }

/-- The function `GX2BeginDisplayListEx(displayList, size, unk1)`. -/
def GX2BeginDisplayListEx (st : State) (displayList size : Nat) (_unk1 : Nat) : State :=
  { st with gCurrentDisplayList := displayList, gCurrentDisplayListSize := size }

/-- The function `GX2BeginDisplayList(displayList, size)`; `TRUE` is 1. -/
def GX2BeginDisplayList (st : State) (displayList size : Nat) : State :=
  GX2BeginDisplayListEx st displayList size 1

/-- The function `GX2EndDisplayList(displayList)`: the value it returns and the state it leaves,
or `none` when its `assert` fails. -/
def GX2EndDisplayList (st : State) (displayList : Nat) : Option (Nat × State) :=
  if st.gCurrentDisplayList = displayList then some (st.gCurrentDisplayListSize, st) else none

/-- The function `GX2DirectCallDisplayList(displayList, size)`, whose body is empty. -/
def GX2DirectCallDisplayList (st : State) (_displayList _size : Nat) : State :=
  st

/-- The function `GX2GetDisplayListWriteStatus()`: `!!gCurrentDisplayList`. -/
def GX2GetDisplayListWriteStatus (st : State) : Bool :=
  decide (st.gCurrentDisplayList ≠ 0)

/-- The function `GX2CopyDisplayList(displayList, size)`; the size global is a `uint32_t`. -/
def GX2CopyDisplayList (st : State) (displayList size : Nat) : State :=
  let dst := st.gCurrentDisplayList + st.gCurrentDisplayListSize
  let st1 := memcpy st dst displayList size
  { st1 with gCurrentDisplayListSize := (st1.gCurrentDisplayListSize + size) % 2 ^ 32 }

/-- The function `GX2CallDisplayList(displayList, size)`. -/
def GX2CallDisplayList (st : State) (displayList size : Nat) : State :=
  if GX2GetDisplayListWriteStatus st then GX2CopyDisplayList st displayList size
  else GX2DirectCallDisplayList st displayList size

/-- One call of a function of the file that reads or writes the two globals
(`GX2GetCurrentDisplayList` only reads them and is left out). -/
inductive Call where
  | BeginDisplayListEx (displayList size unk1 : Nat)
  | BeginDisplayList (displayList size : Nat)
  | EndDisplayList (displayList : Nat)
  | DirectCallDisplayList (displayList size : Nat)
  | CallDisplayList (displayList size : Nat)
  | GetDisplayListWriteStatus
  | CopyDisplayList (displayList size : Nat)

/-- Run one call; `none` when the `assert` of `GX2EndDisplayList` fails. -/
def Call.exec (st : State) : Call → Option State
  | Call.BeginDisplayListEx dl size unk1 => some (GX2BeginDisplayListEx st dl size unk1)
  | Call.BeginDisplayList dl size => some (GX2BeginDisplayList st dl size)
  | Call.EndDisplayList dl => (GX2EndDisplayList st dl).map (fun r => r.2)
  | Call.DirectCallDisplayList dl size => some (GX2DirectCallDisplayList st dl size)
  | Call.CallDisplayList dl size => some (GX2CallDisplayList st dl size)
  | Call.GetDisplayListWriteStatus => some st
  | Call.CopyDisplayList dl size => some (GX2CopyDisplayList st dl size)

/-- Run a sequence of calls one after the other. -/
def run : State → List Call → Option State
  | st, [] => some st
  | st, c :: cs =>
    match c.exec st with
    | none => none
    | some st1 => run st1 cs

end gx2

/-! # Theorems -/

namespace ios.fs

/-! ## Facts about the sizes -/

/-- The request is 0x520 bytes. -/
theorem sizeof_FSARequest_eq : sizeof_FSARequest = 0x520 := by decide

/-- The call buffer is 0x828 bytes: this is the static assertion carried by `Decls`. -/
theorem sizeof_FSAIpcData_eq (d : Decls) : sizeof_FSAIpcData d = 0x828 := by
  have h := d.checkSize
  simpa [CHECK_SIZE_FSAIpcData, coreinit.CHECK_SIZE, sizeof_FSAIpcData] using h

/-- The response fits in what the call buffer leaves after the request and the reserved tail. -/
theorem sizeof_FSAResponse_le (d : Decls) : d.sizeof_FSAResponse ≤ 0x2CB := by
  have h := sizeof_FSAIpcData_eq d
  simp only [sizeof_FSAIpcData, FSAIpcDataLayout, coreinit.sizeofStruct, sizeof_FSARequest_eq] at h
  omega

/-- The cast `static_cast<uint32_t>(sizeof(FSAResponse))` keeps the value. -/
theorem sizeof_FSAResponse_mod (d : Decls) : d.sizeof_FSAResponse % 2 ^ 32 = d.sizeof_FSAResponse :=
  Nat.mod_eq_of_lt (lt_of_le_of_lt (sizeof_FSAResponse_le d) (by norm_num))

/-! ## The allocation helper -/

/-- The result of `allocFsaIpcData` when the heap hands out block `p`. -/
theorem allocFsaIpcData_some (d : Decls) (env : Env) (w : World) (out : Option Nat) (p : Nat)
    (h : env.heapAlloc w d.CrossProcessHeapId (sizeof_FSAIpcData d) = some p) :
    allocFsaIpcData d env w out =
      (d.OK, some p, (atCall d w p w.mem).setIpc p zeroIpcData) := by
  simp [allocFsaIpcData, IOS_HeapAlloc, h, atCall]

/-- The result of `allocFsaIpcData` when the heap is exhausted. -/
theorem allocFsaIpcData_none (d : Decls) (env : Env) (w : World) (out : Option Nat)
    (h : env.heapAlloc w d.CrossProcessHeapId (sizeof_FSAIpcData d) = none) :
    allocFsaIpcData d env w out =
      (d.OutOfResources, out,
        ⟨w.mem, w.host, w.live,
         w.trace ++ [Event.HeapAlloc d.CrossProcessHeapId (sizeof_FSAIpcData d) none]⟩) := by
  simp [allocFsaIpcData, IOS_HeapAlloc, h]

/-! ## What each driver does once its allocation has succeeded -/

/-- The round trip of `FSAOpenFile`: its calls to the outside, its status, what it leaves in
memory and in `*outHandle`, and the request it submits. -/
theorem FSAOpenFile_ok (d : Decls) (env : Env) (w : World) (rh : Nat) (name mode : StringView)
    (out p : Nat) (hname : name.size ≠ 0) (hmode : mode.size ≠ 0)
    (h : env.heapAlloc w d.CrossProcessHeapId (sizeof_FSAIpcData d) = some p) :
    ∃ m N w', FSAOpenFile d env w rh name mode (some out) = some (N, w') ∧
      w'.trace = w.trace ++ roundTrip d p
        (Event.Ioctl rh FSACommand.OpenFile p sizeof_FSARequest (p + sizeof_FSARequest)
          d.sizeof_FSAResponse m N) ∧
      w'.live = w.live ∧
      N = (env.ioctl (atCall d w p m) rh FSACommand.OpenFile p sizeof_FSARequest
            (p + sizeof_FSARequest) d.sizeof_FSAResponse).error ∧
      w'.mem = (env.ioctl (atCall d w p m) rh FSACommand.OpenFile p sizeof_FSARequest
            (p + sizeof_FSARequest) d.sizeof_FSAResponse).mem ∧
      w'.host = (fun q => if q = out then (w'.mem.ipc p).response.openFile_handle else w.host q) ∧
      m.bytes = w.mem.bytes ∧
      (m.ipc p).request =
        storeBE32
          (strncpy (strncpy (fun _ => 0) (payload + 0x0) name.data (coreinit.FSMaxPathLength + 1))
            (payload + 0x280) mode.data 0x10)
          (payload + 0x290) 0x60000 ∧
      (m.ipc p).response = ⟨0⟩ := by
  simp only [FSAOpenFile, hname, hmode, allocFsaIpcData_some d env w none p h, lt_irrefl, if_false]
  refine ⟨_, _, _, rfl, ?_, ?_, rfl, ?_, ?_, ?_, ?_, ?_⟩ <;>
    simp [freeFsaIpcData, IOS_HeapFree, IOS_Ioctl, World.setIpc, World.setHost, atCall, roundTrip,
      zeroIpcData]

/-- The round trip of `FSACloseFile`. -/
theorem FSACloseFile_ok (d : Decls) (env : Env) (w : World) (rh fh p : Nat)
    (h : env.heapAlloc w d.CrossProcessHeapId (sizeof_FSAIpcData d) = some p) :
    ∃ m N w', FSACloseFile d env w rh fh = some (N, w') ∧
      w'.trace = w.trace ++ roundTrip d p
        (Event.Ioctl rh FSACommand.OpenFile p sizeof_FSARequest (p + sizeof_FSARequest)
          d.sizeof_FSAResponse m N) ∧
      w'.live = w.live ∧
      N = (env.ioctl (atCall d w p m) rh FSACommand.OpenFile p sizeof_FSARequest
            (p + sizeof_FSARequest) d.sizeof_FSAResponse).error ∧
      w'.mem = (env.ioctl (atCall d w p m) rh FSACommand.OpenFile p sizeof_FSARequest
            (p + sizeof_FSARequest) d.sizeof_FSAResponse).mem ∧
      w'.host = w.host ∧
      m.bytes = w.mem.bytes ∧
      (m.ipc p).request = storeBE32 (fun _ => 0) (payload + 0x0) fh := by
  simp only [FSACloseFile, allocFsaIpcData_some d env w none p h, lt_irrefl, if_false]
  refine ⟨_, _, _, rfl, ?_, ?_, rfl, ?_, ?_, ?_, ?_⟩ <;>
    simp [freeFsaIpcData, IOS_HeapFree, IOS_Ioctl, World.setIpc, atCall, roundTrip, zeroIpcData]

/-- The round trip of `FSAReadFile`, with the vector array it submits. -/
theorem FSAReadFile_ok (d : Decls) (env : Env) (w : World)
    (rh buffer size count fh flags p : Nat)
    (h : env.heapAlloc w d.CrossProcessHeapId (sizeof_FSAIpcData d) = some p) :
    ∃ m N w', FSAReadFile d env w rh buffer size count fh flags = some (N, w') ∧
      w'.trace = w.trace ++ roundTrip d p
        (Event.Ioctlv rh FSACommand.ReadFile 1 2
          (p + sizeof_FSARequest + d.sizeof_FSAResponse) m N) ∧
      w'.live = w.live ∧
      N = (env.ioctlv (atCall d w p m) rh FSACommand.ReadFile 1 2
            (p + sizeof_FSARequest + d.sizeof_FSAResponse)).error ∧
      w'.mem = (env.ioctlv (atCall d w p m) rh FSACommand.ReadFile 1 2
            (p + sizeof_FSARequest + d.sizeof_FSAResponse)).mem ∧
      w'.host = w.host ∧
      m.bytes = w.mem.bytes ∧
      (m.ipc p).vecs 0 = ⟨p, sizeof_FSARequest % 2 ^ 32⟩ ∧
      (m.ipc p).vecs 1 = ⟨buffer, size * count % 2 ^ 32⟩ ∧
      (m.ipc p).vecs 2 = ⟨p + sizeof_FSARequest, d.sizeof_FSAResponse % 2 ^ 32⟩ ∧
      (m.ipc p).vecs 3 = ⟨0, 0⟩ := by
  simp only [FSAReadFile, allocFsaIpcData_some d env w none p h, lt_irrefl, if_false]
  refine ⟨_, _, _, rfl, ?_, ?_, rfl, ?_, ?_, ?_, ?_, ?_, ?_, ?_⟩ <;>
    simp [freeFsaIpcData, IOS_HeapFree, IOS_Ioctlv, World.setIpc, atCall, roundTrip, zeroIpcData,
      setPaddr, setLen]

/-- The round trip of `FSAWriteFile`, with the vector array it submits. -/
theorem FSAWriteFile_ok (d : Decls) (env : Env) (w : World)
    (rh buffer size count fh flags p : Nat)
    (h : env.heapAlloc w d.CrossProcessHeapId (sizeof_FSAIpcData d) = some p) :
    ∃ m N w', FSAWriteFile d env w rh buffer size count fh flags = some (N, w') ∧
      w'.trace = w.trace ++ roundTrip d p
        (Event.Ioctlv rh FSACommand.WriteFile 2 1
          (p + sizeof_FSARequest + d.sizeof_FSAResponse) m N) ∧
      w'.live = w.live ∧
      N = (env.ioctlv (atCall d w p m) rh FSACommand.WriteFile 2 1
            (p + sizeof_FSARequest + d.sizeof_FSAResponse)).error ∧
      w'.mem = (env.ioctlv (atCall d w p m) rh FSACommand.WriteFile 2 1
            (p + sizeof_FSARequest + d.sizeof_FSAResponse)).mem ∧
      w'.host = w.host ∧
      m.bytes = w.mem.bytes ∧
      (m.ipc p).vecs 0 = ⟨p, sizeof_FSARequest % 2 ^ 32⟩ ∧
      (m.ipc p).vecs 1 = ⟨buffer, size * count % 2 ^ 32⟩ ∧
      (m.ipc p).vecs 2 = ⟨p + sizeof_FSARequest, d.sizeof_FSAResponse % 2 ^ 32⟩ ∧
      (m.ipc p).vecs 3 = ⟨0, 0⟩ := by
  simp only [FSAWriteFile, allocFsaIpcData_some d env w none p h, lt_irrefl, if_false]
  refine ⟨_, _, _, rfl, ?_, ?_, rfl, ?_, ?_, ?_, ?_, ?_, ?_, ?_⟩ <;>
    simp [freeFsaIpcData, IOS_HeapFree, IOS_Ioctlv, World.setIpc, atCall, roundTrip, zeroIpcData,
      setPaddr, setLen]

/-! ## Validation, pass-through and buffer balance -/

/-- C1: `FSAOpenFile` checks, in this order, that `name` is not empty (else `InvalidPath`), that
`mode` is not empty (else `InvalidParam`) and that `outHandle` is not null (else
`InvalidBuffer`). In each of the three cases the world it returns is the world it was given: no
call to the heap or to the transport is added to the trace, and no caller variable (so not
`*outHandle`) is written. -/
theorem FSAOpenFile_validation (d : Decls) (env : Env) (w : World) (rh : Nat)
    (name mode : StringView) (outHandle : Option Nat) :
    (name.size = 0 → FSAOpenFile d env w rh name mode outHandle = some (d.InvalidPath, w)) ∧
    (name.size ≠ 0 → mode.size = 0 →
      FSAOpenFile d env w rh name mode outHandle = some (d.InvalidParam, w)) ∧
    (name.size ≠ 0 → mode.size ≠ 0 → outHandle = none →
      FSAOpenFile d env w rh name mode outHandle = some (d.InvalidBuffer, w)) := by
  refine ⟨?_, ?_, ?_⟩
  · intro h
    simp [FSAOpenFile, h]
  · intro h1 h2
    simp [FSAOpenFile, h1, h2]
  · intro h1 h2 h3
    subst h3
    simp [FSAOpenFile, h1, h2]

theorem FSAOpenFile_validation_witness :
    ((viewOf [] 0).size = 0 ∧
      FSAOpenFile mockDecls mockEnv mockWorld 1 (viewOf [] 0) (viewOf [0x72] 1) (some 5) =
        some (mockDecls.InvalidPath, mockWorld)) ∧
    ((viewOf [0x2F, 0x78] 2).size ≠ 0 ∧ (viewOf [] 0).size = 0 ∧
      FSAOpenFile mockDecls mockEnv mockWorld 1 (viewOf [0x2F, 0x78] 2) (viewOf [] 0) (some 5) =
        some (mockDecls.InvalidParam, mockWorld)) ∧
    ((viewOf [0x2F, 0x78] 2).size ≠ 0 ∧ (viewOf [0x72] 1).size ≠ 0 ∧
      FSAOpenFile mockDecls mockEnv mockWorld 1 (viewOf [0x2F, 0x78] 2) (viewOf [0x72] 1) none =
        some (mockDecls.InvalidBuffer, mockWorld)) :=
  ⟨⟨rfl, (FSAOpenFile_validation mockDecls mockEnv mockWorld 1 (viewOf [] 0) (viewOf [0x72] 1)
      (some 5)).1 rfl⟩,
   ⟨by decide, rfl, (FSAOpenFile_validation mockDecls mockEnv mockWorld 1 (viewOf [0x2F, 0x78] 2)
      (viewOf [] 0) (some 5)).2.1 (by decide) rfl⟩,
   ⟨by decide, by decide, (FSAOpenFile_validation mockDecls mockEnv mockWorld 1
      (viewOf [0x2F, 0x78] 2) (viewOf [0x72] 1) none).2.2 (by decide) (by decide) rfl⟩⟩

/-- C2: when validation passes and the allocation succeeds with block `p`, each of the four
drivers makes exactly these calls to the outside: the allocation, one transport call, and one
free of `p`; and the status it returns is the signed result `N` of that transport call,
whatever `N` is. -/
theorem status_pass_through (d : Decls) (env : Env) (w : World) (name mode : StringView)
    (rh out fh buffer size count flags p : Nat)
    (hname : name.size ≠ 0) (hmode : mode.size ≠ 0)
    (h : env.heapAlloc w d.CrossProcessHeapId (sizeof_FSAIpcData d) = some p) :
    (∃ m N w', FSAOpenFile d env w rh name mode (some out) = some (N, w') ∧
      w'.trace = w.trace ++
        [Event.HeapAlloc d.CrossProcessHeapId (sizeof_FSAIpcData d) (some p),
         Event.Ioctl rh FSACommand.OpenFile p sizeof_FSARequest (p + sizeof_FSARequest)
           d.sizeof_FSAResponse m N,
         Event.HeapFree d.CrossProcessHeapId p] ∧
      N = (env.ioctl (atCall d w p m) rh FSACommand.OpenFile p sizeof_FSARequest
            (p + sizeof_FSARequest) d.sizeof_FSAResponse).error ∧
      w'.live = w.live) ∧
    (∃ m N w', FSACloseFile d env w rh fh = some (N, w') ∧
      w'.trace = w.trace ++
        [Event.HeapAlloc d.CrossProcessHeapId (sizeof_FSAIpcData d) (some p),
         Event.Ioctl rh FSACommand.OpenFile p sizeof_FSARequest (p + sizeof_FSARequest)
           d.sizeof_FSAResponse m N,
         Event.HeapFree d.CrossProcessHeapId p] ∧
      N = (env.ioctl (atCall d w p m) rh FSACommand.OpenFile p sizeof_FSARequest
            (p + sizeof_FSARequest) d.sizeof_FSAResponse).error ∧
      w'.live = w.live) ∧
    (∃ m N w', FSAReadFile d env w rh buffer size count fh flags = some (N, w') ∧
      w'.trace = w.trace ++
        [Event.HeapAlloc d.CrossProcessHeapId (sizeof_FSAIpcData d) (some p),
         Event.Ioctlv rh FSACommand.ReadFile 1 2 (p + sizeof_FSARequest + d.sizeof_FSAResponse)
           m N,
         Event.HeapFree d.CrossProcessHeapId p] ∧
      N = (env.ioctlv (atCall d w p m) rh FSACommand.ReadFile 1 2
            (p + sizeof_FSARequest + d.sizeof_FSAResponse)).error ∧
      w'.live = w.live) ∧
    (∃ m N w', FSAWriteFile d env w rh buffer size count fh flags = some (N, w') ∧
      w'.trace = w.trace ++
        [Event.HeapAlloc d.CrossProcessHeapId (sizeof_FSAIpcData d) (some p),
         Event.Ioctlv rh FSACommand.WriteFile 2 1 (p + sizeof_FSARequest + d.sizeof_FSAResponse)
           m N,
         Event.HeapFree d.CrossProcessHeapId p] ∧
      N = (env.ioctlv (atCall d w p m) rh FSACommand.WriteFile 2 1
            (p + sizeof_FSARequest + d.sizeof_FSAResponse)).error ∧
      w'.live = w.live) := by
  refine ⟨?_, ?_, ?_, ?_⟩
  · obtain ⟨m, N, w', h1, h2, h3, h4, -⟩ := FSAOpenFile_ok d env w rh name mode out p hname hmode h
    exact ⟨m, N, w', h1, h2, h4, h3⟩
  · obtain ⟨m, N, w', h1, h2, h3, h4, -⟩ := FSACloseFile_ok d env w rh fh p h
    exact ⟨m, N, w', h1, h2, h4, h3⟩
  · obtain ⟨m, N, w', h1, h2, h3, h4, -⟩ := FSAReadFile_ok d env w rh buffer size count fh flags p h
    exact ⟨m, N, w', h1, h2, h4, h3⟩
  · obtain ⟨m, N, w', h1, h2, h3, h4, -⟩ := FSAWriteFile_ok d env w rh buffer size count fh flags p h
    exact ⟨m, N, w', h1, h2, h4, h3⟩


theorem status_pass_through_witness :
    (viewOf [0x2F, 0x78] 2).size ≠ 0 ∧ (viewOf [0x72] 1).size ≠ 0 ∧
    flakyEnv.heapAlloc mockWorld mockDecls.CrossProcessHeapId (sizeof_FSAIpcData mockDecls) =
      some 0x2000 ∧
    (∃ w', FSAOpenFile mockDecls flakyEnv mockWorld 1 (viewOf [0x2F, 0x78] 2) (viewOf [0x72] 1)
      (some 5) = some (-5, w')) ∧
    (∃ w', FSACloseFile mockDecls flakyEnv mockWorld 1 7 = some (-5, w')) ∧
    (∃ w', FSAReadFile mockDecls flakyEnv mockWorld 1 0x3000 512 1 7 0 = some (-5, w')) ∧
    (∃ w', FSAWriteFile mockDecls flakyEnv mockWorld 1 0x3000 512 1 7 0 = some (-5, w')) := by
  have T := status_pass_through mockDecls flakyEnv mockWorld (viewOf [0x2F, 0x78] 2)
    (viewOf [0x72] 1) 1 5 7 0x3000 512 1 0 0x2000 (by decide) (by decide) rfl
  obtain ⟨⟨_, N1, w1, a1, -, b1, -⟩, ⟨_, N2, w2, a2, -, b2, -⟩, ⟨_, N3, w3, a3, -, b3, -⟩,
    ⟨_, N4, w4, a4, -, b4, -⟩⟩ := T
  refine ⟨by decide, by decide, rfl, ⟨w1, ?_⟩, ⟨w2, ?_⟩, ⟨w3, ?_⟩, ⟨w4, ?_⟩⟩
  · rw [a1, b1]; rfl
  · rw [a2, b2]; rfl
  · rw [a3, b3]; rfl
  · rw [a4, b4]; rfl

/-- A call of `FSAOpenFile` that fails validation returns at once, in the world it was given. -/
theorem FSAOpenFile_invalid (d : Decls) (env : Env) (w : World) (rh : Nat)
    (name mode : StringView) (outHandle : Option Nat)
    (h : name.size = 0 ∨ mode.size = 0 ∨ outHandle = none) :
    ∃ status, FSAOpenFile d env w rh name mode outHandle = some (status, w) := by
  by_cases h1 : name.size = 0
  · exact ⟨d.InvalidPath, by simp [FSAOpenFile, h1]⟩
  · by_cases h2 : mode.size = 0
    · exact ⟨d.InvalidParam, by simp [FSAOpenFile, h1, h2]⟩
    · rcases h with h | h | h
      · exact absurd h h1
      · exact absurd h h2
      · subst h
        exact ⟨d.InvalidBuffer, by simp [FSAOpenFile, h1, h2]⟩

/-- Successful allocations add up over concatenated traces. -/
theorem allocations_append (s t : List Event) :
    allocations (s ++ t) = allocations s + allocations t := by
  induction s with
  | nil => simp [allocations]
  | cons e es ih =>
    cases e with
    | HeapAlloc h sz b =>
      cases b with
      | none => simp [allocations, ih]
      | some q => simp [allocations, ih]; omega
    | HeapFree h b => simp [allocations, ih]
    | Ioctl a b c d e f g h => simp [allocations, ih]
    | Ioctlv a b c d e f g => simp [allocations, ih]

/-- Frees add up over concatenated traces. -/
theorem releases_append (s t : List Event) :
    releases (s ++ t) = releases s + releases t := by
  induction s with
  | nil => simp [releases]
  | cons e es ih =>
    cases e with
    | HeapAlloc h sz b => simp [releases, ih]
    | HeapFree h b => simp [releases, ih]; omega
    | Ioctl a b c d e f g h => simp [releases, ih]
    | Ioctlv a b c d e f g => simp [releases, ih]

/-- The calls one driver invocation adds to the trace: nothing, one failed allocation, or a
round trip. With `OutOfResources < OK` the driver never goes on after a failed allocation. -/
theorem Call.exec_segment (d : Decls) (env : Env) (hneg : d.OutOfResources < d.OK)
    (c : Call) (w : World) :
    ∃ status w' seg, c.exec d env w = some (status, w') ∧ w'.live = w.live ∧
      w'.trace = w.trace ++ seg ∧
      (seg = [] ∨ seg = [Event.HeapAlloc d.CrossProcessHeapId (sizeof_FSAIpcData d) none] ∨
        ∃ p e, seg = roundTrip d p e ∧ invocations [e] = 1) := by
  cases hA : env.heapAlloc w d.CrossProcessHeapId (sizeof_FSAIpcData d) with
  | none =>
    have key : ∀ f : Option (Int × World),
        f = some (d.OutOfResources, ⟨w.mem, w.host, w.live,
          w.trace ++ [Event.HeapAlloc d.CrossProcessHeapId (sizeof_FSAIpcData d) none]⟩) →
        ∃ status w' seg, f = some (status, w') ∧ w'.live = w.live ∧
          w'.trace = w.trace ++ seg ∧
          (seg = [] ∨ seg = [Event.HeapAlloc d.CrossProcessHeapId (sizeof_FSAIpcData d) none] ∨
            ∃ p e, seg = roundTrip d p e ∧ invocations [e] = 1) := by
      intro f hf
      exact ⟨_, _, _, hf, rfl, rfl, Or.inr (Or.inl rfl)⟩
    cases c with
    | OpenFile rh name mode out =>
      by_cases h1 : name.size = 0
      · obtain ⟨st, hst⟩ := FSAOpenFile_invalid d env w rh name mode out (Or.inl h1)
        exact ⟨st, w, [], hst, rfl, by simp, Or.inl rfl⟩
      · by_cases h2 : mode.size = 0
        · obtain ⟨st, hst⟩ := FSAOpenFile_invalid d env w rh name mode out (Or.inr (Or.inl h2))
          exact ⟨st, w, [], hst, rfl, by simp, Or.inl rfl⟩
        · cases out with
          | none =>
            obtain ⟨st, hst⟩ := FSAOpenFile_invalid d env w rh name mode none (Or.inr (Or.inr rfl))
            exact ⟨st, w, [], hst, rfl, by simp, Or.inl rfl⟩
          | some out =>
            apply key
            simp [Call.exec, FSAOpenFile, h1, h2, allocFsaIpcData_none d env w none hA, hneg]
    | CloseFile rh fh =>
      apply key
      simp [Call.exec, FSACloseFile, allocFsaIpcData_none d env w none hA, hneg]
    | ReadFile rh buffer size count fh flags =>
      apply key
      simp [Call.exec, FSAReadFile, allocFsaIpcData_none d env w none hA, hneg]
    | WriteFile rh buffer size count fh flags =>
      apply key
      simp [Call.exec, FSAWriteFile, allocFsaIpcData_none d env w none hA, hneg]
  | some p =>
    cases c with
    | OpenFile rh name mode out =>
      by_cases h1 : name.size = 0
      · obtain ⟨st, hst⟩ := FSAOpenFile_invalid d env w rh name mode out (Or.inl h1)
        exact ⟨st, w, [], hst, rfl, by simp, Or.inl rfl⟩
      · by_cases h2 : mode.size = 0
        · obtain ⟨st, hst⟩ := FSAOpenFile_invalid d env w rh name mode out (Or.inr (Or.inl h2))
          exact ⟨st, w, [], hst, rfl, by simp, Or.inl rfl⟩
        · cases out with
          | none =>
            obtain ⟨st, hst⟩ := FSAOpenFile_invalid d env w rh name mode none (Or.inr (Or.inr rfl))
            exact ⟨st, w, [], hst, rfl, by simp, Or.inl rfl⟩
          | some out =>
            obtain ⟨m, N, w', a, b, c, -⟩ := FSAOpenFile_ok d env w rh name mode out p h1 h2 hA
            exact ⟨N, w', _, a, c, b, Or.inr (Or.inr ⟨p, _, rfl, rfl⟩)⟩
    | CloseFile rh fh =>
      obtain ⟨m, N, w', a, b, c, -⟩ := FSACloseFile_ok d env w rh fh p hA
      exact ⟨N, w', _, a, c, b, Or.inr (Or.inr ⟨p, _, rfl, rfl⟩)⟩
    | ReadFile rh buffer size count fh flags =>
      obtain ⟨m, N, w', a, b, c, -⟩ := FSAReadFile_ok d env w rh buffer size count fh flags p hA
      exact ⟨N, w', _, a, c, b, Or.inr (Or.inr ⟨p, _, rfl, rfl⟩)⟩
    | WriteFile rh buffer size count fh flags =>
      obtain ⟨m, N, w', a, b, c, -⟩ := FSAWriteFile_ok d env w rh buffer size count fh flags p hA
      exact ⟨N, w', _, a, c, b, Or.inr (Or.inr ⟨p, _, rfl, rfl⟩)⟩

/-- C3: buffer balance. Take `OutOfResources < OK` (the spec's taxonomy for the enumerators that
are declared outside src/). Then every finite sequence of calls of the four drivers, with any
arguments, any heap and any transport, runs to the end; every call returns with the number of
live heap blocks it started with; and in the calls added to the trace the successful
allocations are as many as the frees, every free releases exactly the one block that is held,
and no block is held at the end. -/
theorem buffer_balance (d : Decls) (env : Env) (hneg : d.OutOfResources < d.OK)
    (calls : List Call) (w : World) :
    ∃ rs w' seg, run d env w calls = some (rs, w') ∧ rs.length = calls.length ∧
      (∀ r ∈ rs, r.2 = w.live) ∧ w'.live = w.live ∧ w'.trace = w.trace ++ seg ∧
      allocations seg = releases seg ∧ balancedFrom none seg = true := by
  induction calls generalizing w with
  | nil => exact ⟨[], w, [], rfl, rfl, by simp, rfl, by simp, rfl, rfl⟩
  | cons c cs ih =>
    obtain ⟨st, w1, seg1, e1, l1, t1, sh⟩ := Call.exec_segment d env hneg c w
    obtain ⟨rs, w2, seg2, e2, n2, a2, l2, t2, c2, b2⟩ := ih w1
    refine ⟨(st, w1.live) :: rs, w2, seg1 ++ seg2, ?_, ?_, ?_, ?_, ?_, ?_, ?_⟩
    · simp [run, e1, e2]
    · simp [n2]
    · intro r hr
      rcases List.mem_cons.1 hr with rfl | hr
      · exact l1
      · rw [a2 r hr, l1]
    · rw [l2, l1]
    · rw [t2, t1, List.append_assoc]
    · rw [allocations_append, releases_append, c2]
      rcases sh with rfl | rfl | ⟨p, e, rfl, he⟩
      · rfl
      · rfl
      · cases e <;> simp [invocations] at he <;> simp [roundTrip, allocations, releases]
    · rcases sh with rfl | rfl | ⟨p, e, rfl, he⟩
      · simpa using b2
      · simpa [balancedFrom] using b2
      · cases e <;> simp [invocations] at he <;> simpa [roundTrip, balancedFrom] using b2

theorem buffer_balance_witness :
    mockDecls.OutOfResources < mockDecls.OK ∧
    ∃ rs w' seg,
      run mockDecls flakyEnv mockWorld
        [Call.ReadFile 1 0x3000 512 1 7 0, Call.CloseFile 1 7,
         Call.OpenFile 1 (viewOf [] 0) (viewOf [0x72] 1) (some 5),
         Call.WriteFile 1 0x3000 0x10000 0x10000 7 0,
         Call.OpenFile 1 (viewOf [0x2F, 0x78] 2) (viewOf [0x72] 1) (some 5)] = some (rs, w') ∧
      rs.length = 5 ∧ (∀ r ∈ rs, r.2 = mockWorld.live) ∧ w'.live = mockWorld.live ∧
      w'.trace = mockWorld.trace ++ seg ∧ allocations seg = releases seg ∧
      balancedFrom none seg = true :=
  ⟨by decide, buffer_balance mockDecls flakyEnv (by decide) _ mockWorld⟩

/-! ## Vector shapes and the byte length of the data vector -/

/-- C4 (amended): when the allocation succeeds with block `p`, `FSAReadFile` invokes the vectored
transport once, with command `ReadFile`, inCount 1, outCount 2 and the vector array of block
`p`, in which slot 0 is (address of the request, 0x520), slot 1 is (the caller's buffer address,
`size * count` reduced modulo 2^32), slot 2 is (address of the response, size of the response)
and slot 3 is zero. The length of slot 1 is the product `size * count` whenever that product is
below 2^32. The request is the first member of the block, so its address is `p`; the response
follows it at `p + 0x520`, and the vector array follows the response. -/
theorem FSAReadFile_vectors (d : Decls) (env : Env) (w : World)
    (rh buffer size count fh flags p : Nat)
    (h : env.heapAlloc w d.CrossProcessHeapId (sizeof_FSAIpcData d) = some p) :
    ∃ m N w', FSAReadFile d env w rh buffer size count fh flags = some (N, w') ∧
      w'.trace = w.trace ++
        [Event.HeapAlloc d.CrossProcessHeapId (sizeof_FSAIpcData d) (some p),
         Event.Ioctlv rh FSACommand.ReadFile 1 2 (p + 0x520 + d.sizeof_FSAResponse) m N,
         Event.HeapFree d.CrossProcessHeapId p] ∧
      (m.ipc p).vecs 0 = ⟨p, 0x520⟩ ∧
      (m.ipc p).vecs 1 = ⟨buffer, size * count % 2 ^ 32⟩ ∧
      (m.ipc p).vecs 2 = ⟨p + 0x520, d.sizeof_FSAResponse⟩ ∧
      (m.ipc p).vecs 3 = ⟨0, 0⟩ ∧
      (size * count < 2 ^ 32 → ((m.ipc p).vecs 1).len = size * count) := by
  obtain ⟨m, N, w', h1, h2, -, -, -, -, -, v0, v1, v2, v3⟩ :=
    FSAReadFile_ok d env w rh buffer size count fh flags p h
  rw [sizeof_FSAResponse_mod] at v2
  rw [sizeof_FSARequest_eq] at h2 v0 v2
  refine ⟨m, N, w', h1, h2, v0, v1, v2, v3, ?_⟩
  intro hlt
  rw [v1]
  exact Nat.mod_eq_of_lt hlt

theorem FSAReadFile_vectors_witness :
    mockEnv.heapAlloc mockWorld mockDecls.CrossProcessHeapId (sizeof_FSAIpcData mockDecls) =
      some 0x1000 ∧
    ∃ m N w', FSAReadFile mockDecls mockEnv mockWorld 1 0x3000 512 1 7 0 = some (N, w') ∧
      w'.trace = mockWorld.trace ++
        [Event.HeapAlloc mockDecls.CrossProcessHeapId (sizeof_FSAIpcData mockDecls) (some 0x1000),
         Event.Ioctlv 1 FSACommand.ReadFile 1 2 (0x1000 + 0x520 + mockDecls.sizeof_FSAResponse)
           m N,
         Event.HeapFree mockDecls.CrossProcessHeapId 0x1000] ∧
      (m.ipc 0x1000).vecs 0 = ⟨0x1000, 0x520⟩ ∧
      (m.ipc 0x1000).vecs 1 = ⟨0x3000, 512 * 1 % 2 ^ 32⟩ ∧
      (m.ipc 0x1000).vecs 2 = ⟨0x1000 + 0x520, mockDecls.sizeof_FSAResponse⟩ ∧
      (m.ipc 0x1000).vecs 3 = ⟨0, 0⟩ ∧
      (512 * 1 < 2 ^ 32 → ((m.ipc 0x1000).vecs 1).len = 512 * 1) :=
  ⟨rfl, FSAReadFile_vectors mockDecls mockEnv mockWorld 1 0x3000 512 1 7 0 0x1000 rfl⟩

/-- C4 as stated fails: with size = 0xFFFFFFFF and count = 2 the vectored transport is invoked with
a slot 1 of length 0xFFFFFFFE, which is not the product size × count = 0x1FFFFFFFE. -/
theorem FSAReadFile_vector_length_not_product :
    ∃ m N w', FSAReadFile mockDecls mockEnv mockWorld 1 0x3000 0xFFFFFFFF 2 7 0 = some (N, w') ∧
      w'.trace =
        [Event.HeapAlloc 0xCAFF 0x828 (some 0x1000),
         Event.Ioctlv 1 FSACommand.ReadFile 1 2 (0x1000 + 0x520 + 0x293) m N,
         Event.HeapFree 0xCAFF 0x1000] ∧
      ((m.ipc 0x1000).vecs 1).len = 0xFFFFFFFE ∧
      ((m.ipc 0x1000).vecs 1).len ≠ 0xFFFFFFFF * 2 :=
  ⟨_, _, _, rfl, rfl, by decide, by decide⟩

/-- C5 (amended): when the allocation succeeds with block `p`, `FSAWriteFile` invokes the vectored
transport once, with command `WriteFile`, inCount 2, outCount 1 and the vector array of block
`p`, in which slot 0 is (address of the request, 0x520), slot 1 is (the caller's buffer address,
`size * count` reduced modulo 2^32), slot 2 is (address of the response, size of the response)
and slot 3 is zero; the length of slot 1 is the product whenever that is below 2^32. For the same
arguments `FSAReadFile` submits the same four slots at the same address: the two calls differ in
the command and in the in/out counts. -/
theorem FSAWriteFile_vectors (d : Decls) (env : Env) (w : World)
    (rh buffer size count fh flags p : Nat)
    (h : env.heapAlloc w d.CrossProcessHeapId (sizeof_FSAIpcData d) = some p) :
    ∃ m N w', FSAWriteFile d env w rh buffer size count fh flags = some (N, w') ∧
      w'.trace = w.trace ++
        [Event.HeapAlloc d.CrossProcessHeapId (sizeof_FSAIpcData d) (some p),
         Event.Ioctlv rh FSACommand.WriteFile 2 1 (p + 0x520 + d.sizeof_FSAResponse) m N,
         Event.HeapFree d.CrossProcessHeapId p] ∧
      (m.ipc p).vecs 0 = ⟨p, 0x520⟩ ∧
      (m.ipc p).vecs 1 = ⟨buffer, size * count % 2 ^ 32⟩ ∧
      (m.ipc p).vecs 2 = ⟨p + 0x520, d.sizeof_FSAResponse⟩ ∧
      (m.ipc p).vecs 3 = ⟨0, 0⟩ ∧
      (size * count < 2 ^ 32 → ((m.ipc p).vecs 1).len = size * count) ∧
      ∃ mr Nr wr, FSAReadFile d env w rh buffer size count fh flags = some (Nr, wr) ∧
        wr.trace = w.trace ++
          [Event.HeapAlloc d.CrossProcessHeapId (sizeof_FSAIpcData d) (some p),
           Event.Ioctlv rh FSACommand.ReadFile 1 2 (p + 0x520 + d.sizeof_FSAResponse) mr Nr,
           Event.HeapFree d.CrossProcessHeapId p] ∧
        ∀ i, (mr.ipc p).vecs i = (m.ipc p).vecs i := by
  obtain ⟨m, N, w', h1, h2, -, -, -, -, -, v0, v1, v2, v3⟩ :=
    FSAWriteFile_ok d env w rh buffer size count fh flags p h
  obtain ⟨mr, Nr, wr, r1, r2, -, -, -, -, -, u0, u1, u2, u3⟩ :=
    FSAReadFile_ok d env w rh buffer size count fh flags p h
  rw [sizeof_FSAResponse_mod] at v2
  rw [sizeof_FSARequest_eq] at h2 v0 v2 r2
  refine ⟨m, N, w', h1, h2, v0, v1, v2, v3, ?_, mr, Nr, wr, r1, r2, ?_⟩
  · intro hlt
    rw [v1]
    exact Nat.mod_eq_of_lt hlt
  · intro i
    rw [sizeof_FSAResponse_mod] at u2
    rw [sizeof_FSARequest_eq] at u0 u2
    fin_cases i
    · exact u0.trans v0.symm
    · exact u1.trans v1.symm
    · exact u2.trans v2.symm
    · exact u3.trans v3.symm

theorem FSAWriteFile_vectors_witness :
    mockEnv.heapAlloc mockWorld mockDecls.CrossProcessHeapId (sizeof_FSAIpcData mockDecls) =
      some 0x1000 ∧
    ∃ m N w', FSAWriteFile mockDecls mockEnv mockWorld 1 0x3000 512 1 7 0 = some (N, w') ∧
      w'.trace = mockWorld.trace ++
        [Event.HeapAlloc mockDecls.CrossProcessHeapId (sizeof_FSAIpcData mockDecls) (some 0x1000),
         Event.Ioctlv 1 FSACommand.WriteFile 2 1 (0x1000 + 0x520 + mockDecls.sizeof_FSAResponse)
           m N,
         Event.HeapFree mockDecls.CrossProcessHeapId 0x1000] ∧
      (m.ipc 0x1000).vecs 0 = ⟨0x1000, 0x520⟩ ∧
      (m.ipc 0x1000).vecs 1 = ⟨0x3000, 512 * 1 % 2 ^ 32⟩ ∧
      (m.ipc 0x1000).vecs 2 = ⟨0x1000 + 0x520, mockDecls.sizeof_FSAResponse⟩ ∧
      (m.ipc 0x1000).vecs 3 = ⟨0, 0⟩ ∧
      (512 * 1 < 2 ^ 32 → ((m.ipc 0x1000).vecs 1).len = 512 * 1) ∧
      ∃ mr Nr wr, FSAReadFile mockDecls mockEnv mockWorld 1 0x3000 512 1 7 0 = some (Nr, wr) ∧
        wr.trace = mockWorld.trace ++
          [Event.HeapAlloc mockDecls.CrossProcessHeapId (sizeof_FSAIpcData mockDecls)
             (some 0x1000),
           Event.Ioctlv 1 FSACommand.ReadFile 1 2 (0x1000 + 0x520 + mockDecls.sizeof_FSAResponse)
             mr Nr,
           Event.HeapFree mockDecls.CrossProcessHeapId 0x1000] ∧
        ∀ i, (mr.ipc 0x1000).vecs i = (m.ipc 0x1000).vecs i :=
  ⟨rfl, FSAWriteFile_vectors mockDecls mockEnv mockWorld 1 0x3000 512 1 7 0 0x1000 rfl⟩

/-- C5 as stated fails: with size = 0x80000000 and count = 2 the vectored transport is invoked
with a slot 1 of length 0, which is not the product size × count = 0x100000000. -/
theorem FSAWriteFile_vector_length_not_product :
    ∃ m N w', FSAWriteFile mockDecls mockEnv mockWorld 1 0x3000 0x80000000 2 7 0 = some (N, w') ∧
      w'.trace =
        [Event.HeapAlloc 0xCAFF 0x828 (some 0x1000),
         Event.Ioctlv 1 FSACommand.WriteFile 2 1 (0x1000 + 0x520 + 0x293) m N,
         Event.HeapFree 0xCAFF 0x1000] ∧
      ((m.ipc 0x1000).vecs 1).len = 0 ∧
      ((m.ipc 0x1000).vecs 1).len ≠ 0x80000000 * 2 :=
  ⟨_, _, _, rfl, rfl, by decide, by decide⟩

/-- C6 at the failing input: `FSACloseFile(1, 7)`, with the heap handing out block 0x1000,
populates `closeFile.handle` (request bytes 4..7 are 00 00 00 07) and invokes the flat transport
with the command `OpenFile`, which is not `CloseFile`. -/
theorem FSACloseFile_passes_OpenFile :
    ∃ m N w', FSACloseFile mockDecls mockEnv mockWorld 1 7 = some (N, w') ∧
      w'.trace =
        [Event.HeapAlloc 0xCAFF 0x828 (some 0x1000),
         Event.Ioctl 1 FSACommand.OpenFile 0x1000 0x520 (0x1000 + 0x520) 0x293 m N,
         Event.HeapFree 0xCAFF 0x1000] ∧
      (m.ipc 0x1000).request 4 = 0 ∧ (m.ipc 0x1000).request 5 = 0 ∧
      (m.ipc 0x1000).request 6 = 0 ∧ (m.ipc 0x1000).request 7 = 7 ∧
      FSACommand.OpenFile ≠ FSACommand.CloseFile :=
  ⟨_, _, _, rfl, rfl, by decide, by decide, by decide, by decide, by decide⟩

/-- C7 (amended): there is no overflow guard. For every size and count, when the allocation
succeeds `FSAReadFile` and `FSAWriteFile` both invoke the vectored transport and return its
result, and the length they submit in slot 1 is `size * count` reduced modulo 2^32; for 32-bit
size and count that length equals the product exactly when the product is below 2^32. -/
theorem data_vector_length (d : Decls) (env : Env) (w : World)
    (rh buffer size count fh flags p : Nat)
    (h : env.heapAlloc w d.CrossProcessHeapId (sizeof_FSAIpcData d) = some p) :
    (∃ m N w', FSAReadFile d env w rh buffer size count fh flags = some (N, w') ∧
      w'.trace = w.trace ++
        [Event.HeapAlloc d.CrossProcessHeapId (sizeof_FSAIpcData d) (some p),
         Event.Ioctlv rh FSACommand.ReadFile 1 2 (p + 0x520 + d.sizeof_FSAResponse) m N,
         Event.HeapFree d.CrossProcessHeapId p] ∧
      N = (env.ioctlv (atCall d w p m) rh FSACommand.ReadFile 1 2
            (p + 0x520 + d.sizeof_FSAResponse)).error ∧
      ((m.ipc p).vecs 1).len = size * count % 2 ^ 32 ∧
      (((m.ipc p).vecs 1).len = size * count ↔ size * count < 2 ^ 32)) ∧
    (∃ m N w', FSAWriteFile d env w rh buffer size count fh flags = some (N, w') ∧
      w'.trace = w.trace ++
        [Event.HeapAlloc d.CrossProcessHeapId (sizeof_FSAIpcData d) (some p),
         Event.Ioctlv rh FSACommand.WriteFile 2 1 (p + 0x520 + d.sizeof_FSAResponse) m N,
         Event.HeapFree d.CrossProcessHeapId p] ∧
      N = (env.ioctlv (atCall d w p m) rh FSACommand.WriteFile 2 1
            (p + 0x520 + d.sizeof_FSAResponse)).error ∧
      ((m.ipc p).vecs 1).len = size * count % 2 ^ 32 ∧
      (((m.ipc p).vecs 1).len = size * count ↔ size * count < 2 ^ 32)) := by
  have key : ∀ n : Nat, (n % 2 ^ 32 = n ↔ n < 2 ^ 32) := fun n =>
    ⟨fun e => e ▸ Nat.mod_lt n (by norm_num), Nat.mod_eq_of_lt⟩
  constructor
  · obtain ⟨m, N, w', h1, h2, -, h4, -, -, -, -, v1, -⟩ :=
      FSAReadFile_ok d env w rh buffer size count fh flags p h
    rw [sizeof_FSARequest_eq] at h2 h4
    exact ⟨m, N, w', h1, h2, h4, by rw [v1], by rw [v1]; exact key _⟩
  · obtain ⟨m, N, w', h1, h2, -, h4, -, -, -, -, v1, -⟩ :=
      FSAWriteFile_ok d env w rh buffer size count fh flags p h
    rw [sizeof_FSARequest_eq] at h2 h4
    exact ⟨m, N, w', h1, h2, h4, by rw [v1], by rw [v1]; exact key _⟩

theorem data_vector_length_witness :
    mockEnv.heapAlloc mockWorld mockDecls.CrossProcessHeapId (sizeof_FSAIpcData mockDecls) =
      some 0x1000 ∧
    (∃ w', FSAReadFile mockDecls mockEnv mockWorld 1 0x3000 0x10000 0x10000 7 0 = some (0, w')) ∧
    (∃ w', FSAWriteFile mockDecls mockEnv mockWorld 1 0x3000 0x10000 0x10000 7 0 =
      some (0, w')) := by
  have T := data_vector_length mockDecls mockEnv mockWorld 1 0x3000 0x10000 0x10000 7 0 0x1000 rfl
  obtain ⟨⟨_, N1, w1, a1, -, b1, -⟩, ⟨_, N2, w2, a2, -, b2, -⟩⟩ := T
  refine ⟨rfl, ⟨w1, ?_⟩, ⟨w2, ?_⟩⟩
  · rw [a1, b1]; rfl
  · rw [a2, b2]; rfl

/-- C7 as stated fails: with size = count = 0x10000 neither driver rejects the call. Each invokes
the vectored transport, with a slot 1 whose length has wrapped to 0 = (size × count) mod 2^32,
and returns the transport's result 0. -/
theorem no_overflow_guard :
    (∃ m w', FSAReadFile mockDecls mockEnv mockWorld 1 0x3000 0x10000 0x10000 7 0 =
        some (0, w') ∧
      w'.trace =
        [Event.HeapAlloc 0xCAFF 0x828 (some 0x1000),
         Event.Ioctlv 1 FSACommand.ReadFile 1 2 (0x1000 + 0x520 + 0x293) m 0,
         Event.HeapFree 0xCAFF 0x1000] ∧
      ((m.ipc 0x1000).vecs 1).len = 0 ∧ 0x10000 * 0x10000 ≥ 2 ^ 32) ∧
    (∃ m w', FSAWriteFile mockDecls mockEnv mockWorld 1 0x3000 0x10000 0x10000 7 0 =
        some (0, w') ∧
      w'.trace =
        [Event.HeapAlloc 0xCAFF 0x828 (some 0x1000),
         Event.Ioctlv 1 FSACommand.WriteFile 2 1 (0x1000 + 0x520 + 0x293) m 0,
         Event.HeapFree 0xCAFF 0x1000] ∧
      ((m.ipc 0x1000).vecs 1).len = 0 ∧ 0x10000 * 0x10000 ≥ 2 ^ 32) :=
  ⟨⟨_, _, rfl, rfl, by decide, by decide⟩, ⟨_, _, rfl, rfl, by decide, by decide⟩⟩

/-! ## String copies into the open request -/

/-- Outside the `n` bytes at `dst`, `strncpy` leaves memory as it was. -/
theorem strncpy_outside (m : Nat → Nat) (dst : Nat) (src : Nat → Nat) (n a : Nat)
    (h : a < dst ∨ dst + n ≤ a) : strncpy m dst src n a = m a := by
  unfold strncpy
  rw [if_neg]
  omega

/-- Byte `i` of the `n` bytes at `dst` is byte `i` of what `strncpy` stores. -/
theorem strncpy_inside (m : Nat → Nat) (dst : Nat) (src : Nat → Nat) (n i : Nat) (h : i < n) :
    strncpy m dst src n (dst + i) = (strncpyBytes src n 0).getD i 0 := by
  unfold strncpy
  rw [if_pos ⟨Nat.le_add_right _ _, by omega⟩, Nat.add_sub_cancel_left]

/-- Outside its 4 bytes, a big-endian store leaves memory as it was. -/
theorem storeBE32_outside (m : Nat → Nat) (off v a : Nat) (h : a < off ∨ off + 4 ≤ a) :
    storeBE32 m off v a = m a := by
  unfold storeBE32 writeBytes
  rw [if_neg]
  simp only [be32, List.length_cons, List.length_nil]
  omega

/-- What `strncpy` stores when the source has `len` chars without a NUL and either a NUL right
after them or at least as many chars as the copy takes. -/
theorem strncpyBytes_getD (src : Nat → Nat) (len : Nat) (hchars : ∀ t, t < len → src t ≠ 0)
    (n i j : Nat) (hi : i ≤ len) (hend : src len = 0 ∨ i + n ≤ len) (hj : j < n) :
    (strncpyBytes src n i).getD j 0 = if i + j < len then src (i + j) else 0 := by
  induction n generalizing i j with
  | zero => omega
  | succ n ih =>
    unfold strncpyBytes
    by_cases h0 : src i = 0
    · have hil : ¬ i < len := fun hlt => hchars i hlt h0
      rw [if_pos h0, if_neg (by omega)]
      simp [List.getD_eq_getElem?_getD, List.getElem?_replicate, hj]
    · have hil : i < len := by
        rcases hend with hend | hend
        · rcases Nat.lt_or_ge i len with hlt | hge
          · exact hlt
          · have : i = len := le_antisymm hi hge
            exact absurd (this ▸ hend) h0
        · omega
      rw [if_neg h0]
      cases j with
      | zero => simp [hil]
      | succ j =>
        have := ih (i + 1) j hil (by rcases hend with hend | hend; exact Or.inl hend; exact Or.inr (by omega)) (by omega)
        simp only [List.getD_cons_succ]
        rw [this]
        have e : i + 1 + j = i + (j + 1) := by omega
        rw [e]

/-- The path and mode fields of the request `FSAOpenFile` submits, when each view has no NUL among
its chars and is followed by a NUL or fills its field: the field holds the first chars of the view
up to the field width, then zero bytes. -/
theorem FSAOpenFile_strings_terminated (d : Decls) (env : Env) (w : World) (rh : Nat)
    (name mode : StringView) (out p : Nat) (hname : name.size ≠ 0) (hmode : mode.size ≠ 0)
    (h : env.heapAlloc w d.CrossProcessHeapId (sizeof_FSAIpcData d) = some p)
    (hn : ∀ t, t < name.size → name.data t ≠ 0)
    (hnend : name.data name.size = 0 ∨ 0x280 ≤ name.size)
    (hm : ∀ t, t < mode.size → mode.data t ≠ 0)
    (hmend : mode.data mode.size = 0 ∨ 0x10 ≤ mode.size) :
    ∃ m N w', FSAOpenFile d env w rh name mode (some out) = some (N, w') ∧
      w'.trace = w.trace ++
        [Event.HeapAlloc d.CrossProcessHeapId (sizeof_FSAIpcData d) (some p),
         Event.Ioctl rh FSACommand.OpenFile p 0x520 (p + 0x520) d.sizeof_FSAResponse m N,
         Event.HeapFree d.CrossProcessHeapId p] ∧
      (∀ i, i < 0x280 →
        (m.ipc p).request (4 + 0x0 + i) = if i < name.size then name.data i else 0) ∧
      (∀ i, i < 0x10 →
        (m.ipc p).request (4 + 0x280 + i) = if i < mode.size then mode.data i else 0) := by
  obtain ⟨m, N, w', h1, h2, -, -, -, -, -, hreq, -⟩ :=
    FSAOpenFile_ok d env w rh name mode out p hname hmode h
  rw [sizeof_FSARequest_eq] at h2
  refine ⟨m, N, w', h1, h2, ?_, ?_⟩
  · intro i hi
    rw [hreq, storeBE32_outside _ _ _ _ (by simp [payload, coreinit.sizeof_uint32]; omega),
      strncpy_outside _ _ _ _ _ (by simp [payload, coreinit.sizeof_uint32]; omega)]
    have hb := strncpyBytes_getD name.data name.size hn 0x280 0 i (Nat.zero_le _)
      (by simpa using hnend) hi
    simp only [Nat.zero_add] at hb
    have e : 4 + 0x0 + i = payload + 0x0 + i := rfl
    rw [e, strncpy_inside _ _ _ _ _ (by simpa [coreinit.FSMaxPathLength] using hi)]
    exact hb
  · intro i hi
    rw [hreq, storeBE32_outside _ _ _ _ (by simp [payload, coreinit.sizeof_uint32]; omega)]
    have hb := strncpyBytes_getD mode.data mode.size hm 0x10 0 i (Nat.zero_le _)
      (by simpa using hmend) hi
    simp only [Nat.zero_add] at hb
    have e : 4 + 0x280 + i = payload + 0x280 + i := rfl
    rw [e, strncpy_inside _ _ _ _ _ hi]
    exact hb

/-- Whatever the views hold, the path copy and the mode copy of `FSAOpenFile` stay inside their
fields: in the submitted request the word `unk0x00` is zero, the scalar at payload offset 0x290 is
0x60000 in big-endian, and every byte from payload offset 0x294 on is zero. -/
theorem FSAOpenFile_strings_frame (d : Decls) (env : Env) (w : World) (rh : Nat)
    (name mode : StringView) (out p : Nat) (hname : name.size ≠ 0) (hmode : mode.size ≠ 0)
    (h : env.heapAlloc w d.CrossProcessHeapId (sizeof_FSAIpcData d) = some p) :
    ∃ m N w', FSAOpenFile d env w rh name mode (some out) = some (N, w') ∧
      w'.trace = w.trace ++
        [Event.HeapAlloc d.CrossProcessHeapId (sizeof_FSAIpcData d) (some p),
         Event.Ioctl rh FSACommand.OpenFile p 0x520 (p + 0x520) d.sizeof_FSAResponse m N,
         Event.HeapFree d.CrossProcessHeapId p] ∧
      (∀ a, a < 4 → (m.ipc p).request a = 0) ∧
      (m.ipc p).request (4 + 0x290) = 0x00 ∧ (m.ipc p).request (4 + 0x291) = 0x06 ∧
      (m.ipc p).request (4 + 0x292) = 0x00 ∧ (m.ipc p).request (4 + 0x293) = 0x00 ∧
      (∀ a, 4 + 0x294 ≤ a → (m.ipc p).request a = 0) := by
  obtain ⟨m, N, w', h1, h2, -, -, -, -, -, hreq, -⟩ :=
    FSAOpenFile_ok d env w rh name mode out p hname hmode h
  rw [sizeof_FSARequest_eq] at h2
  refine ⟨m, N, w', h1, h2, ?_, ?_, ?_, ?_, ?_, ?_⟩
  · intro a ha
    rw [hreq, storeBE32_outside _ _ _ _ (by simp [payload, coreinit.sizeof_uint32]; omega),
      strncpy_outside _ _ _ _ _ (by simp [payload, coreinit.sizeof_uint32]; omega),
      strncpy_outside _ _ _ _ _ (by simp [payload, coreinit.sizeof_uint32]; omega)]
  · rw [hreq]; simp [storeBE32, writeBytes, be32, payload, coreinit.sizeof_uint32]
  · rw [hreq]; simp [storeBE32, writeBytes, be32, payload, coreinit.sizeof_uint32]
  · rw [hreq]; simp [storeBE32, writeBytes, be32, payload, coreinit.sizeof_uint32]
  · rw [hreq]; simp [storeBE32, writeBytes, be32, payload, coreinit.sizeof_uint32]
  · intro a ha
    rw [hreq, storeBE32_outside _ _ _ _ (by simp [payload, coreinit.sizeof_uint32]; omega),
      strncpy_outside _ _ _ _ _ (by simp [payload, coreinit.sizeof_uint32]; omega),
      strncpy_outside _ _ _ _ _
        (by simp [payload, coreinit.sizeof_uint32, coreinit.FSMaxPathLength]; omega)]

/-- C8 at the failing input: `name` is the view of the first char of the array "ab" (size 1, no
NUL among its chars) and `mode` is "r". The request `FSAOpenFile` submits has 'a' at byte 0 of
the path field and 'b' at byte 1: `strncpy` reads `name.data()` up to the next NUL and not up to
`name.size()`, so the field does not hold the first min(1, 0x280) = 1 bytes of `name` followed
by zero bytes. -/
theorem FSAOpenFile_copies_past_view :
    ∃ m N w', FSAOpenFile mockDecls mockEnv mockWorld 1 (viewOf [0x61, 0x62] 1) (viewOf [0x72] 1)
        (some 5) = some (N, w') ∧
      w'.trace =
        [Event.HeapAlloc 0xCAFF 0x828 (some 0x1000),
         Event.Ioctl 1 FSACommand.OpenFile 0x1000 0x520 (0x1000 + 0x520) 0x293 m N,
         Event.HeapFree 0xCAFF 0x1000] ∧
      (viewOf [0x61, 0x62] 1).size = 1 ∧ (viewOf [0x61, 0x62] 1).chars = [0x61] ∧
      (m.ipc 0x1000).request (4 + 0x0 + 0) = 0x61 ∧
      (m.ipc 0x1000).request (4 + 0x0 + 1) = 0x62 ∧
      (m.ipc 0x1000).request (4 + 0x0 + 2) = 0 :=
  ⟨_, _, _, rfl, rfl, rfl, by decide, by decide, by decide, by decide⟩

/-! ## The allocation contract -/

/-- C10: `allocFsaIpcData` makes one call to the heap, for the cross-process heap and for
`sizeof(FSAIpcData)` = 0x828 bytes. Given that the enumerators `OutOfResources` and `OK` differ,
it returns `OutOfResources` exactly when the heap returns no block, and then `*outIpcData` and
memory are as before. When the heap returns block `p` it returns `OK`, `*outIpcData` is `p`, and
the whole block is zero: every request byte, the response, the four vector descriptors, the
command, the session handle and every byte of the reserved tail. -/
theorem allocFsaIpcData_contract (d : Decls) (env : Env) (w : World) (out : Option Nat)
    (hne : d.OutOfResources ≠ d.OK) :
    (allocFsaIpcData d env w out).2.2.trace =
      w.trace ++ [Event.HeapAlloc d.CrossProcessHeapId 0x828
        (env.heapAlloc w d.CrossProcessHeapId 0x828)] ∧
    ((allocFsaIpcData d env w out).1 = d.OutOfResources ↔
      env.heapAlloc w d.CrossProcessHeapId 0x828 = none) ∧
    (env.heapAlloc w d.CrossProcessHeapId 0x828 = none →
      (allocFsaIpcData d env w out).2.1 = out ∧ (allocFsaIpcData d env w out).2.2.mem = w.mem) ∧
    (∀ p, env.heapAlloc w d.CrossProcessHeapId 0x828 = some p →
      (allocFsaIpcData d env w out).1 = d.OK ∧
      (allocFsaIpcData d env w out).2.1 = some p ∧
      (∀ i, ((allocFsaIpcData d env w out).2.2.mem.ipc p).request i = 0) ∧
      ((allocFsaIpcData d env w out).2.2.mem.ipc p).response.openFile_handle = 0 ∧
      (∀ i, ((allocFsaIpcData d env w out).2.2.mem.ipc p).vecs i = ⟨0, 0⟩) ∧
      ((allocFsaIpcData d env w out).2.2.mem.ipc p).command = 0 ∧
      ((allocFsaIpcData d env w out).2.2.mem.ipc p).resourceHandle = 0 ∧
      (∀ i, ((allocFsaIpcData d env w out).2.2.mem.ipc p).unknown i = 0)) := by
  rw [← sizeof_FSAIpcData_eq d]
  cases hA : env.heapAlloc w d.CrossProcessHeapId (sizeof_FSAIpcData d) with
  | none =>
    rw [allocFsaIpcData_none d env w out hA]
    exact ⟨rfl, ⟨fun _ => rfl, fun _ => rfl⟩, fun _ => ⟨rfl, rfl⟩, fun p hp => by simp at hp⟩
  | some q =>
    rw [allocFsaIpcData_some d env w out q hA]
    refine ⟨rfl, ⟨fun e => absurd e.symm hne, fun e => by simp at e⟩, fun e => by simp at e, ?_⟩
    intro p hp
    obtain rfl : q = p := by simpa using hp
    simp [World.setIpc, zeroIpcData]

theorem allocFsaIpcData_contract_witness :
    mockDecls.OutOfResources ≠ mockDecls.OK ∧
    mockEnv.heapAlloc mockWorld mockDecls.CrossProcessHeapId 0x828 = some 0x1000 ∧
    (mockWorld.mem.ipc 0x1000).request 0 = 0xAA ∧
    (allocFsaIpcData mockDecls mockEnv mockWorld none).1 = mockDecls.OK ∧
    (allocFsaIpcData mockDecls mockEnv mockWorld none).2.1 = some 0x1000 ∧
    (∀ i, ((allocFsaIpcData mockDecls mockEnv mockWorld none).2.2.mem.ipc 0x1000).request i = 0) ∧
    (flakyEnv.heapAlloc { mockWorld with trace := [Event.HeapFree 0 0] }
        mockDecls.CrossProcessHeapId 0x828 = none ∧
      (allocFsaIpcData mockDecls flakyEnv { mockWorld with trace := [Event.HeapFree 0 0] }
        (some 3)).1 = mockDecls.OutOfResources ∧
      (allocFsaIpcData mockDecls flakyEnv { mockWorld with trace := [Event.HeapFree 0 0] }
        (some 3)).2.1 = some 3) :=
  have T := (allocFsaIpcData_contract mockDecls mockEnv mockWorld none (by decide)).2.2.2
    0x1000 rfl
  have U := allocFsaIpcData_contract mockDecls flakyEnv
    { mockWorld with trace := [Event.HeapFree 0 0] } (some 3) (by decide)
  ⟨by decide, rfl, rfl, T.1, T.2.1, T.2.2.1, rfl, U.2.1.2 rfl, (U.2.2.1 rfl).1⟩

end ios.fs

namespace coreinit

/-! ## Layout -/

end coreinit

namespace ios.fs

/-! ## Resource exhaustion and the handle returned by Open -/

/-- C11: resource exhaustion. Take `OutOfResources < OK` (the spec's taxonomy for the
enumerators that are declared outside src/). When the heap returns no block, `FSAOpenFile` (with
valid arguments), `FSACloseFile`, `FSAReadFile` and `FSAWriteFile` each return `OutOfResources`,
and the only call they add to the trace is the failed allocation: the transport is not invoked,
nothing is freed, and memory and the callers' variables (so `*outHandle`) are as before. -/
theorem resource_exhaustion (d : Decls) (env : Env) (w : World) (name mode : StringView)
    (rh out fh buffer size count flags : Nat)
    (hneg : d.OutOfResources < d.OK) (hname : name.size ≠ 0) (hmode : mode.size ≠ 0)
    (hA : env.heapAlloc w d.CrossProcessHeapId (sizeof_FSAIpcData d) = none) :
    FSAOpenFile d env w rh name mode (some out) =
      some (d.OutOfResources, ⟨w.mem, w.host, w.live,
        w.trace ++ [Event.HeapAlloc d.CrossProcessHeapId (sizeof_FSAIpcData d) none]⟩) ∧
    FSACloseFile d env w rh fh =
      some (d.OutOfResources, ⟨w.mem, w.host, w.live,
        w.trace ++ [Event.HeapAlloc d.CrossProcessHeapId (sizeof_FSAIpcData d) none]⟩) ∧
    FSAReadFile d env w rh buffer size count fh flags =
      some (d.OutOfResources, ⟨w.mem, w.host, w.live,
        w.trace ++ [Event.HeapAlloc d.CrossProcessHeapId (sizeof_FSAIpcData d) none]⟩) ∧
    FSAWriteFile d env w rh buffer size count fh flags =
      some (d.OutOfResources, ⟨w.mem, w.host, w.live,
        w.trace ++ [Event.HeapAlloc d.CrossProcessHeapId (sizeof_FSAIpcData d) none]⟩) ∧
    invocations [Event.HeapAlloc d.CrossProcessHeapId (sizeof_FSAIpcData d) none] = 0 ∧
    releases [Event.HeapAlloc d.CrossProcessHeapId (sizeof_FSAIpcData d) none] = 0 := by
  refine ⟨?_, ?_, ?_, ?_, rfl, rfl⟩
  · simp [FSAOpenFile, hname, hmode, allocFsaIpcData_none d env w none hA, hneg]
  · simp [FSACloseFile, allocFsaIpcData_none d env w none hA, hneg]
  · simp [FSAReadFile, allocFsaIpcData_none d env w none hA, hneg]
  · simp [FSAWriteFile, allocFsaIpcData_none d env w none hA, hneg]

theorem resource_exhaustion_witness :
    mockDecls.OutOfResources < mockDecls.OK ∧ (viewOf [0x2F, 0x78] 2).size ≠ 0 ∧
    (viewOf [0x72] 1).size ≠ 0 ∧
    exhaustedEnv.heapAlloc mockWorld mockDecls.CrossProcessHeapId (sizeof_FSAIpcData mockDecls) =
      none ∧
    FSAOpenFile mockDecls exhaustedEnv mockWorld 1 (viewOf [0x2F, 0x78] 2) (viewOf [0x72] 1)
        (some 5) =
      some (mockDecls.OutOfResources, ⟨mockWorld.mem, mockWorld.host, mockWorld.live,
        mockWorld.trace ++
          [Event.HeapAlloc mockDecls.CrossProcessHeapId (sizeof_FSAIpcData mockDecls) none]⟩) ∧
    FSAReadFile mockDecls exhaustedEnv mockWorld 1 0x3000 512 1 7 0 =
      some (mockDecls.OutOfResources, ⟨mockWorld.mem, mockWorld.host, mockWorld.live,
        mockWorld.trace ++
          [Event.HeapAlloc mockDecls.CrossProcessHeapId (sizeof_FSAIpcData mockDecls) none]⟩) :=
  have T := resource_exhaustion mockDecls exhaustedEnv mockWorld (viewOf [0x2F, 0x78] 2)
    (viewOf [0x72] 1) 1 5 7 0x3000 512 1 0 (by decide) (by decide) (by decide) rfl
  ⟨by decide, by decide, by decide, rfl, T.1, T.2.2.1⟩

/-- C12: when validation passes and the allocation succeeds with block `p`, `FSAOpenFile` leaves
in `*outHandle` the file-handle field of the response of block `p` as the transport call left
it, whatever result that call returned, and writes no other caller variable. In particular, with
`OK` = 0, when the transport writes handle 7 and returns 0, Open returns `OK` and `*outHandle`
is 7. -/
theorem FSAOpenFile_outHandle (d : Decls) (env : Env) (w : World) (rh : Nat)
    (name mode : StringView) (out p : Nat) (hname : name.size ≠ 0) (hmode : mode.size ≠ 0)
    (hA : env.heapAlloc w d.CrossProcessHeapId (sizeof_FSAIpcData d) = some p) :
    ∃ m N w', FSAOpenFile d env w rh name mode (some out) = some (N, w') ∧
      w'.trace = w.trace ++
        [Event.HeapAlloc d.CrossProcessHeapId (sizeof_FSAIpcData d) (some p),
         Event.Ioctl rh FSACommand.OpenFile p 0x520 (p + 0x520) d.sizeof_FSAResponse m N,
         Event.HeapFree d.CrossProcessHeapId p] ∧
      N = (env.ioctl (atCall d w p m) rh FSACommand.OpenFile p 0x520 (p + 0x520)
            d.sizeof_FSAResponse).error ∧
      w'.host out =
        ((env.ioctl (atCall d w p m) rh FSACommand.OpenFile p 0x520 (p + 0x520)
            d.sizeof_FSAResponse).mem.ipc p).response.openFile_handle ∧
      (∀ q, q ≠ out → w'.host q = w.host q) ∧
      (d.OK = 0 →
        (env.ioctl (atCall d w p m) rh FSACommand.OpenFile p 0x520 (p + 0x520)
            d.sizeof_FSAResponse).error = 0 →
        ((env.ioctl (atCall d w p m) rh FSACommand.OpenFile p 0x520 (p + 0x520)
            d.sizeof_FSAResponse).mem.ipc p).response.openFile_handle = 7 →
        N = d.OK ∧ w'.host out = 7) := by
  obtain ⟨m, N, w', h1, h2, -, h4, h5, h6, -⟩ :=
    FSAOpenFile_ok d env w rh name mode out p hname hmode hA
  rw [sizeof_FSARequest_eq] at h2 h4 h5
  have hout : w'.host out =
      ((env.ioctl (atCall d w p m) rh FSACommand.OpenFile p 0x520 (p + 0x520)
        d.sizeof_FSAResponse).mem.ipc p).response.openFile_handle := by
    rw [h6, ← h5]; simp
  refine ⟨m, N, w', h1, h2, h4, hout, ?_, ?_⟩
  · intro q hq
    rw [h6]; simp [hq]
  · intro hOK he hh
    exact ⟨by rw [h4, he, hOK], by rw [hout, hh]⟩

theorem FSAOpenFile_outHandle_witness :
    (viewOf [0x2F, 0x78] 2).size ≠ 0 ∧ (viewOf [0x72] 1).size ≠ 0 ∧
    handleEnv.heapAlloc mockWorld mockDecls.CrossProcessHeapId (sizeof_FSAIpcData mockDecls) =
      some 0x1000 ∧
    mockDecls.OK = 0 ∧
    ∃ w', FSAOpenFile mockDecls handleEnv mockWorld 1 (viewOf [0x2F, 0x78] 2) (viewOf [0x72] 1)
        (some 5) = some (mockDecls.OK, w') ∧ w'.host 5 = 7 := by
  obtain ⟨m, N, w', h1, -, -, -, -, h6⟩ :=
    FSAOpenFile_outHandle mockDecls handleEnv mockWorld 1 (viewOf [0x2F, 0x78] 2)
      (viewOf [0x72] 1) 5 0x1000 (by decide) (by decide) rfl
  obtain ⟨hN, hh⟩ := h6 rfl rfl (by simp [handleEnv])
  exact ⟨by decide, by decide, rfl, rfl, w', by rw [h1, hN], hh⟩

/-- C16: the call buffer is zero-filled when it is allocated, so when validation passes and the
allocation succeeds with block `p`, the response `FSAOpenFile` submits is zero whatever the block
held before; `*outHandle` becomes the handle field of the response as the transport call left
it; and when the transport call leaves the response of block `p` as it was submitted,
`*outHandle` is set to 0. -/
theorem FSAOpenFile_outHandle_zero (d : Decls) (env : Env) (w : World) (rh : Nat)
    (name mode : StringView) (out p : Nat) (hname : name.size ≠ 0) (hmode : mode.size ≠ 0)
    (hA : env.heapAlloc w d.CrossProcessHeapId (sizeof_FSAIpcData d) = some p) :
    ∃ m N w', FSAOpenFile d env w rh name mode (some out) = some (N, w') ∧
      w'.trace = w.trace ++
        [Event.HeapAlloc d.CrossProcessHeapId (sizeof_FSAIpcData d) (some p),
         Event.Ioctl rh FSACommand.OpenFile p 0x520 (p + 0x520) d.sizeof_FSAResponse m N,
         Event.HeapFree d.CrossProcessHeapId p] ∧
      (m.ipc p).response.openFile_handle = 0 ∧
      w'.host out =
        ((env.ioctl (atCall d w p m) rh FSACommand.OpenFile p 0x520 (p + 0x520)
            d.sizeof_FSAResponse).mem.ipc p).response.openFile_handle ∧
      (((env.ioctl (atCall d w p m) rh FSACommand.OpenFile p 0x520 (p + 0x520)
            d.sizeof_FSAResponse).mem.ipc p).response = (m.ipc p).response →
        w'.host out = 0) := by
  obtain ⟨m, N, w', h1, h2, -, -, h5, h6, -, -, h9⟩ :=
    FSAOpenFile_ok d env w rh name mode out p hname hmode hA
  rw [sizeof_FSARequest_eq] at h2 h5
  have hout : w'.host out =
      ((env.ioctl (atCall d w p m) rh FSACommand.OpenFile p 0x520 (p + 0x520)
        d.sizeof_FSAResponse).mem.ipc p).response.openFile_handle := by
    rw [h6, ← h5]; simp
  refine ⟨m, N, w', h1, h2, by rw [h9], hout, ?_⟩
  intro hsame
  rw [hout, hsame, h9]

theorem FSAOpenFile_outHandle_zero_witness :
    (viewOf [0x2F, 0x78] 2).size ≠ 0 ∧ (viewOf [0x72] 1).size ≠ 0 ∧
    flakyEnv.heapAlloc staleWorld mockDecls.CrossProcessHeapId (sizeof_FSAIpcData mockDecls) =
      some 0x2000 ∧
    (staleWorld.mem.ipc 0x2000).response.openFile_handle = 0xAAAAAAAA ∧
    staleWorld.host 5 = 0xBB ∧
    ∃ N w', FSAOpenFile mockDecls flakyEnv staleWorld 1 (viewOf [0x2F, 0x78] 2) (viewOf [0x72] 1)
        (some 5) = some (N, w') ∧ w'.host 5 = 0 := by
  obtain ⟨m, N, w', h1, -, -, -, h5⟩ :=
    FSAOpenFile_outHandle_zero mockDecls flakyEnv staleWorld 1 (viewOf [0x2F, 0x78] 2)
      (viewOf [0x72] 1) 5 0x2000 (by decide) (by decide) rfl
  exact ⟨by decide, by decide, rfl, rfl, rfl, N, w', h1, h5 rfl⟩

/-! ## The requests the drivers submit -/

/-- A big-endian store followed by a read at the same offset gives the value back. -/
theorem loadBE32_storeBE32 (m : Nat → Nat) (off v : Nat) (hv : v < 2 ^ 32) :
    loadBE32 (storeBE32 m off v) off = v := by
  simp only [loadBE32, storeBE32, writeBytes, be32, List.length_cons, List.length_nil]
  rw [if_pos (by omega), if_pos (by omega), if_pos (by omega), if_pos (by omega)]
  have e0 : off - off = 0 := by omega
  have e1 : off + 1 - off = 1 := by omega
  have e2 : off + 2 - off = 2 := by omega
  have e3 : off + 3 - off = 3 := by omega
  rw [e0, e1, e2, e3]
  simp only [List.getD_cons_zero, List.getD_cons_succ]
  omega

/-- Byte `j` of a big-endian store is byte `j` of the value's big-endian bytes. -/
theorem storeBE32_inside (m : Nat → Nat) (off v j : Nat) (hj : j < 4) :
    storeBE32 m off v (off + j) = (be32 v).getD j 0 := by
  unfold storeBE32 writeBytes
  rw [if_pos ⟨Nat.le_add_right _ _, by simp only [be32, List.length_cons, List.length_nil]; omega⟩,
    Nat.add_sub_cancel_left]

/-- A read sees only the four bytes at its offset. -/
theorem loadBE32_congr (m n : Nat → Nat) (off : Nat)
    (h : ∀ j, j < 4 → m (off + j) = n (off + j)) : loadBE32 m off = loadBE32 n off := by
  have h0 := h 0 (by norm_num)
  have h1 := h 1 (by norm_num)
  have h2 := h 2 (by norm_num)
  have h3 := h 3 (by norm_num)
  simp only [Nat.add_zero] at h0
  simp only [loadBE32, h0, h1, h2, h3]

/-- A read at an offset that a store does not touch. -/
theorem loadBE32_storeBE32_apart (m : Nat → Nat) (off o v : Nat)
    (h : off + 4 ≤ o ∨ o + 4 ≤ off) : loadBE32 (storeBE32 m o v) off = loadBE32 m off := by
  apply loadBE32_congr
  intro j hj
  exact storeBE32_outside m o v (off + j) (by omega)

/-- The request `FSAReadFile` submits. -/
theorem FSAReadFile_request (d : Decls) (env : Env) (w : World)
    (rh buffer size count fh flags p : Nat)
    (h : env.heapAlloc w d.CrossProcessHeapId (sizeof_FSAIpcData d) = some p) :
    ∃ m N w', FSAReadFile d env w rh buffer size count fh flags = some (N, w') ∧
      w'.trace = w.trace ++ roundTrip d p
        (Event.Ioctlv rh FSACommand.ReadFile 1 2
          (p + sizeof_FSARequest + d.sizeof_FSAResponse) m N) ∧
      N = (env.ioctlv (atCall d w p m) rh FSACommand.ReadFile 1 2
            (p + sizeof_FSARequest + d.sizeof_FSAResponse)).error ∧
      (m.ipc p).request =
        storeBE32 (storeBE32 (storeBE32 (storeBE32 (fun _ => 0) (payload + 0x10) fh)
          (payload + 0x04) size) (payload + 0x08) count) (payload + 0x14) flags := by
  simp only [FSAReadFile, allocFsaIpcData_some d env w none p h, lt_irrefl, if_false]
  refine ⟨_, _, _, rfl, ?_, rfl, ?_⟩ <;>
    simp [freeFsaIpcData, IOS_HeapFree, IOS_Ioctlv, World.setIpc, atCall, roundTrip, zeroIpcData]

/-- The request `FSAWriteFile` submits. -/
theorem FSAWriteFile_request (d : Decls) (env : Env) (w : World)
    (rh buffer size count fh flags p : Nat)
    (h : env.heapAlloc w d.CrossProcessHeapId (sizeof_FSAIpcData d) = some p) :
    ∃ m N w', FSAWriteFile d env w rh buffer size count fh flags = some (N, w') ∧
      w'.trace = w.trace ++ roundTrip d p
        (Event.Ioctlv rh FSACommand.WriteFile 2 1
          (p + sizeof_FSARequest + d.sizeof_FSAResponse) m N) ∧
      N = (env.ioctlv (atCall d w p m) rh FSACommand.WriteFile 2 1
            (p + sizeof_FSARequest + d.sizeof_FSAResponse)).error ∧
      (m.ipc p).request =
        storeBE32 (storeBE32 (storeBE32 (storeBE32 (fun _ => 0) (payload + 0x10) fh)
          (payload + 0x04) size) (payload + 0x08) count) (payload + 0x14) flags := by
  simp only [FSAWriteFile, allocFsaIpcData_some d env w none p h, lt_irrefl, if_false]
  refine ⟨_, _, _, rfl, ?_, rfl, ?_⟩ <;>
    simp [freeFsaIpcData, IOS_HeapFree, IOS_Ioctlv, World.setIpc, atCall, roundTrip, zeroIpcData]

/-- The fields of a read or write request: size at 0x04, count at 0x08, handle at 0x10 and
flags at 0x14 of the payload, in big-endian (as values read back and byte by byte), and zero
everywhere else. -/
theorem transfer_request_fields (size count fh flags : Nat)
    (hsize : size < 2 ^ 32) (hcount : count < 2 ^ 32) (hfh : fh < 2 ^ 32)
    (hflags : flags < 2 ^ 32) (req : Nat → Nat)
    (hreq : req =
      storeBE32 (storeBE32 (storeBE32 (storeBE32 (fun _ => 0) (payload + 0x10) fh)
        (payload + 0x04) size) (payload + 0x08) count) (payload + 0x14) flags) :
    loadBE32 req (4 + 0x04) = size ∧ loadBE32 req (4 + 0x08) = count ∧
    loadBE32 req (4 + 0x10) = fh ∧ loadBE32 req (4 + 0x14) = flags ∧
    (∀ a, a < 4 + 0x04 ∨ (4 + 0x0C ≤ a ∧ a < 4 + 0x10) ∨ 4 + 0x18 ≤ a → req a = 0) ∧
    (∀ j, j < 4 → req (4 + 0x04 + j) = (be32 size).getD j 0 ∧
      req (4 + 0x08 + j) = (be32 count).getD j 0 ∧ req (4 + 0x10 + j) = (be32 fh).getD j 0 ∧
      req (4 + 0x14 + j) = (be32 flags).getD j 0) := by
  have hp : payload = 4 := rfl
  subst hreq
  simp only [hp]
  refine ⟨?_, ?_, ?_, ?_, ?_, ?_⟩
  · rw [loadBE32_storeBE32_apart _ _ _ _ (by omega), loadBE32_storeBE32_apart _ _ _ _ (by omega)]
    exact loadBE32_storeBE32 _ _ _ hsize
  · rw [loadBE32_storeBE32_apart _ _ _ _ (by omega)]
    exact loadBE32_storeBE32 _ _ _ hcount
  · rw [loadBE32_storeBE32_apart _ _ _ _ (by omega), loadBE32_storeBE32_apart _ _ _ _ (by omega),
      loadBE32_storeBE32_apart _ _ _ _ (by omega)]
    exact loadBE32_storeBE32 _ _ _ hfh
  · exact loadBE32_storeBE32 _ _ _ hflags
  · intro a ha
    rw [storeBE32_outside _ _ _ _ (by omega), storeBE32_outside _ _ _ _ (by omega),
      storeBE32_outside _ _ _ _ (by omega), storeBE32_outside _ _ _ _ (by omega)]
  · intro j hj
    refine ⟨?_, ?_, ?_, ?_⟩
    · rw [storeBE32_outside _ _ _ _ (by omega), storeBE32_outside _ _ _ _ (by omega)]
      exact storeBE32_inside _ _ _ _ hj
    · rw [storeBE32_outside _ _ _ _ (by omega)]
      exact storeBE32_inside _ _ _ _ hj
    · rw [storeBE32_outside _ _ _ _ (by omega), storeBE32_outside _ _ _ _ (by omega),
        storeBE32_outside _ _ _ _ (by omega)]
      exact storeBE32_inside _ _ _ _ hj
    · exact storeBE32_inside _ _ _ _ hj

/-- C14: when validation passes and the allocation succeeds with block `p`, `FSAOpenFile` invokes
the flat transport with the caller's session handle, the command `OpenFile`, the request of block
`p` (the block's first member, at `p`) with length 0x520 and the response of block `p` (the next
member, at `p + 0x520`) with the size of the response. In the submitted request the bytes at
payload offset 0x290 are 00 06 00 00, that is 0x60000 in big-endian, and the scalars at 0x294 and
0x298 and the leading word `unk0x00` are zero. -/
theorem FSAOpenFile_invocation (d : Decls) (env : Env) (w : World) (rh : Nat)
    (name mode : StringView) (out p : Nat) (hname : name.size ≠ 0) (hmode : mode.size ≠ 0)
    (hA : env.heapAlloc w d.CrossProcessHeapId (sizeof_FSAIpcData d) = some p) :
    ∃ m N w', FSAOpenFile d env w rh name mode (some out) = some (N, w') ∧
      w'.trace = w.trace ++
        [Event.HeapAlloc d.CrossProcessHeapId (sizeof_FSAIpcData d) (some p),
         Event.Ioctl rh FSACommand.OpenFile p 0x520 (p + 0x520) d.sizeof_FSAResponse m N,
         Event.HeapFree d.CrossProcessHeapId p] ∧
      coreinit.offsetOf (FSAIpcDataLayout d.sizeof_FSAResponse d.sizeof_IoctlVec
        d.sizeof_FSACommand d.sizeof_ResourceHandleId) "request" = some 0 ∧
      coreinit.offsetOf (FSAIpcDataLayout d.sizeof_FSAResponse d.sizeof_IoctlVec
        d.sizeof_FSACommand d.sizeof_ResourceHandleId) "response" = some 0x520 ∧
      (m.ipc p).request (4 + 0x290) = 0x00 ∧ (m.ipc p).request (4 + 0x291) = 0x06 ∧
      (m.ipc p).request (4 + 0x292) = 0x00 ∧ (m.ipc p).request (4 + 0x293) = 0x00 ∧
      loadBE32 (m.ipc p).request (4 + 0x290) = 0x60000 ∧
      loadBE32 (m.ipc p).request (4 + 0x294) = 0 ∧
      loadBE32 (m.ipc p).request (4 + 0x298) = 0 ∧
      loadBE32 (m.ipc p).request 0x00 = 0 := by
  obtain ⟨m, N, w', h1, h2, hz, b0, b1, b2, b3, ht⟩ :=
    FSAOpenFile_strings_frame d env w rh name mode out p hname hmode hA
  have o1 : coreinit.offsetOf (FSAIpcDataLayout d.sizeof_FSAResponse d.sizeof_IoctlVec
      d.sizeof_FSACommand d.sizeof_ResourceHandleId) "request" = some 0 := rfl
  have o2 : coreinit.offsetOf (FSAIpcDataLayout d.sizeof_FSAResponse d.sizeof_IoctlVec
      d.sizeof_FSACommand d.sizeof_ResourceHandleId) "response" = some (sizeof_FSARequest + 0) :=
    rfl
  rw [sizeof_FSARequest_eq] at o2
  refine ⟨m, N, w', h1, h2, o1, o2, b0, b1, b2, b3, ?_, ?_, ?_, ?_⟩
  · have e1 : 4 + 0x290 + 1 = 4 + 0x291 := by norm_num
    have e2 : 4 + 0x290 + 2 = 4 + 0x292 := by norm_num
    have e3 : 4 + 0x290 + 3 = 4 + 0x293 := by norm_num
    simp only [loadBE32, e1, e2, e3, b0, b1, b2, b3]
  · simp only [loadBE32]
    rw [ht _ (by omega), ht _ (by omega), ht _ (by omega), ht _ (by omega)]
  · simp only [loadBE32]
    rw [ht _ (by omega), ht _ (by omega), ht _ (by omega), ht _ (by omega)]
  · simp only [loadBE32]
    rw [hz _ (by omega), hz _ (by omega), hz _ (by omega), hz _ (by omega)]

theorem FSAOpenFile_invocation_witness :
    (viewOf [0x2F, 0x78] 2).size ≠ 0 ∧ (viewOf [0x72] 1).size ≠ 0 ∧
    mockEnv.heapAlloc mockWorld mockDecls.CrossProcessHeapId (sizeof_FSAIpcData mockDecls) =
      some 0x1000 ∧
    ∃ m N w', FSAOpenFile mockDecls mockEnv mockWorld 0x55 (viewOf [0x2F, 0x78] 2)
        (viewOf [0x72] 1) (some 5) = some (N, w') ∧
      w'.trace = mockWorld.trace ++
        [Event.HeapAlloc mockDecls.CrossProcessHeapId (sizeof_FSAIpcData mockDecls) (some 0x1000),
         Event.Ioctl 0x55 FSACommand.OpenFile 0x1000 0x520 (0x1000 + 0x520)
           mockDecls.sizeof_FSAResponse m N,
         Event.HeapFree mockDecls.CrossProcessHeapId 0x1000] ∧
      loadBE32 (m.ipc 0x1000).request (4 + 0x290) = 0x60000 := by
  obtain ⟨m, N, w', h1, h2, -, -, -, -, -, -, h3, -⟩ :=
    FSAOpenFile_invocation mockDecls mockEnv mockWorld 0x55 (viewOf [0x2F, 0x78] 2)
      (viewOf [0x72] 1) 5 0x1000 (by decide) (by decide) rfl
  exact ⟨by decide, by decide, rfl, m, N, w', h1, h2, h3⟩

/-- C15: with 32-bit arguments and a successful allocation of block `p`: in the request
`FSACloseFile` submits, the four bytes at payload offset 0x0 are the big-endian bytes of the file
handle (they read back as the handle) and every other byte is zero; in the request `FSAReadFile`
submits, and in the one `FSAWriteFile` submits, the four-byte fields at payload offsets 0x04,
0x08, 0x10 and 0x14 are the big-endian bytes of size, count, file handle and flags (they read
back as those values), and every other byte is zero, the buffer-pointer field at 0x00 and the
file-position field at 0x0C included. -/
theorem request_population (d : Decls) (env : Env) (w : World)
    (rh buffer size count fh flags p : Nat)
    (hsize : size < 2 ^ 32) (hcount : count < 2 ^ 32) (hfh : fh < 2 ^ 32)
    (hflags : flags < 2 ^ 32)
    (hA : env.heapAlloc w d.CrossProcessHeapId (sizeof_FSAIpcData d) = some p) :
    (∃ m N w', FSACloseFile d env w rh fh = some (N, w') ∧
      w'.trace = w.trace ++
        [Event.HeapAlloc d.CrossProcessHeapId (sizeof_FSAIpcData d) (some p),
         Event.Ioctl rh FSACommand.OpenFile p 0x520 (p + 0x520) d.sizeof_FSAResponse m N,
         Event.HeapFree d.CrossProcessHeapId p] ∧
      loadBE32 (m.ipc p).request (4 + 0x0) = fh ∧
      (∀ j, j < 4 → (m.ipc p).request (4 + 0x0 + j) = (be32 fh).getD j 0) ∧
      (∀ a, a < 4 + 0x0 ∨ 4 + 0x4 ≤ a → (m.ipc p).request a = 0)) ∧
    (∃ m N w', FSAReadFile d env w rh buffer size count fh flags = some (N, w') ∧
      w'.trace = w.trace ++
        [Event.HeapAlloc d.CrossProcessHeapId (sizeof_FSAIpcData d) (some p),
         Event.Ioctlv rh FSACommand.ReadFile 1 2 (p + 0x520 + d.sizeof_FSAResponse) m N,
         Event.HeapFree d.CrossProcessHeapId p] ∧
      loadBE32 (m.ipc p).request (4 + 0x04) = size ∧
      loadBE32 (m.ipc p).request (4 + 0x08) = count ∧
      loadBE32 (m.ipc p).request (4 + 0x10) = fh ∧
      loadBE32 (m.ipc p).request (4 + 0x14) = flags ∧
      (∀ a, a < 4 + 0x04 ∨ (4 + 0x0C ≤ a ∧ a < 4 + 0x10) ∨ 4 + 0x18 ≤ a →
        (m.ipc p).request a = 0) ∧
      (∀ j, j < 4 → (m.ipc p).request (4 + 0x04 + j) = (be32 size).getD j 0 ∧
        (m.ipc p).request (4 + 0x08 + j) = (be32 count).getD j 0 ∧
        (m.ipc p).request (4 + 0x10 + j) = (be32 fh).getD j 0 ∧
        (m.ipc p).request (4 + 0x14 + j) = (be32 flags).getD j 0)) ∧
    (∃ m N w', FSAWriteFile d env w rh buffer size count fh flags = some (N, w') ∧
      w'.trace = w.trace ++
        [Event.HeapAlloc d.CrossProcessHeapId (sizeof_FSAIpcData d) (some p),
         Event.Ioctlv rh FSACommand.WriteFile 2 1 (p + 0x520 + d.sizeof_FSAResponse) m N,
         Event.HeapFree d.CrossProcessHeapId p] ∧
      loadBE32 (m.ipc p).request (4 + 0x04) = size ∧
      loadBE32 (m.ipc p).request (4 + 0x08) = count ∧
      loadBE32 (m.ipc p).request (4 + 0x10) = fh ∧
      loadBE32 (m.ipc p).request (4 + 0x14) = flags ∧
      (∀ a, a < 4 + 0x04 ∨ (4 + 0x0C ≤ a ∧ a < 4 + 0x10) ∨ 4 + 0x18 ≤ a →
        (m.ipc p).request a = 0) ∧
      (∀ j, j < 4 → (m.ipc p).request (4 + 0x04 + j) = (be32 size).getD j 0 ∧
        (m.ipc p).request (4 + 0x08 + j) = (be32 count).getD j 0 ∧
        (m.ipc p).request (4 + 0x10 + j) = (be32 fh).getD j 0 ∧
        (m.ipc p).request (4 + 0x14 + j) = (be32 flags).getD j 0)) := by
  refine ⟨?_, ?_, ?_⟩
  · obtain ⟨m, N, w', h1, h2, -, -, -, -, -, hreq⟩ := FSACloseFile_ok d env w rh fh p hA
    rw [sizeof_FSARequest_eq] at h2
    refine ⟨m, N, w', h1, h2, ?_, ?_, ?_⟩
    · rw [hreq]
      exact loadBE32_storeBE32 _ _ _ hfh
    · intro j hj
      rw [hreq]
      exact storeBE32_inside _ _ _ _ hj
    · intro a ha
      rw [hreq]
      exact storeBE32_outside _ _ _ _ (by simp only [payload, coreinit.sizeof_uint32]; omega)
  · obtain ⟨m, N, w', h1, h2, -, hreq⟩ :=
      FSAReadFile_request d env w rh buffer size count fh flags p hA
    rw [sizeof_FSARequest_eq] at h2
    obtain ⟨a1, a2, a3, a4, a5, a6⟩ :=
      transfer_request_fields size count fh flags hsize hcount hfh hflags _ hreq
    exact ⟨m, N, w', h1, h2, a1, a2, a3, a4, a5, a6⟩
  · obtain ⟨m, N, w', h1, h2, -, hreq⟩ :=
      FSAWriteFile_request d env w rh buffer size count fh flags p hA
    rw [sizeof_FSARequest_eq] at h2
    obtain ⟨a1, a2, a3, a4, a5, a6⟩ :=
      transfer_request_fields size count fh flags hsize hcount hfh hflags _ hreq
    exact ⟨m, N, w', h1, h2, a1, a2, a3, a4, a5, a6⟩

theorem request_population_witness :
    512 < 2 ^ 32 ∧ 1 < 2 ^ 32 ∧ 7 < 2 ^ 32 ∧ 0 < 2 ^ 32 ∧
    mockEnv.heapAlloc mockWorld mockDecls.CrossProcessHeapId (sizeof_FSAIpcData mockDecls) =
      some 0x1000 ∧
    (∃ m N w', FSACloseFile mockDecls mockEnv mockWorld 1 7 = some (N, w') ∧
      w'.trace = mockWorld.trace ++
        [Event.HeapAlloc mockDecls.CrossProcessHeapId (sizeof_FSAIpcData mockDecls) (some 0x1000),
         Event.Ioctl 1 FSACommand.OpenFile 0x1000 0x520 (0x1000 + 0x520)
           mockDecls.sizeof_FSAResponse m N,
         Event.HeapFree mockDecls.CrossProcessHeapId 0x1000] ∧
      loadBE32 (m.ipc 0x1000).request (4 + 0x0) = 7) ∧
    (∃ m N w', FSAReadFile mockDecls mockEnv mockWorld 1 0x3000 512 1 7 0 = some (N, w') ∧
      w'.trace = mockWorld.trace ++
        [Event.HeapAlloc mockDecls.CrossProcessHeapId (sizeof_FSAIpcData mockDecls) (some 0x1000),
         Event.Ioctlv 1 FSACommand.ReadFile 1 2 (0x1000 + 0x520 + mockDecls.sizeof_FSAResponse)
           m N,
         Event.HeapFree mockDecls.CrossProcessHeapId 0x1000] ∧
      loadBE32 (m.ipc 0x1000).request (4 + 0x04) = 512 ∧
      loadBE32 (m.ipc 0x1000).request (4 + 0x10) = 7) := by
  obtain ⟨⟨m1, N1, w1, a1, a2, a3, -⟩, ⟨m2, N2, w2, b1, b2, b3, -, b5, -⟩, -⟩ :=
    request_population mockDecls mockEnv mockWorld 1 0x3000 512 1 7 0 0x1000
      (by norm_num) (by norm_num) (by norm_num) (by norm_num) rfl
  exact ⟨by norm_num, by norm_num, by norm_num, by norm_num, rfl, ⟨m1, N1, w1, a1, a2, a3⟩,
    ⟨m2, N2, w2, b1, b2, b3, b5⟩⟩

/-! ## End-to-end read -/

/-- C13 (amended): take `OK` = 0. `FSAReadFile` is called with size 512, count 1 and handle 7, its
allocation succeeds with block `p`, and the vectored transport, given a slot 1 of length 512,
fills the region that slot describes with `pattern` and returns 512. Then after the call the
caller's destination buffer holds `pattern`, and `FSAReadFile` returns the status of numeric
value 512: a value of the success domain (not below `OK`), and not the status `OK`. -/
theorem FSAReadFile_end_to_end (d : Decls) (env : Env) (w : World) (rh buffer flags p : Nat)
    (pattern : Fin 512 → Nat) (hOK : d.OK = 0)
    (hA : env.heapAlloc w d.CrossProcessHeapId (sizeof_FSAIpcData d) = some p)
    (hT : ∀ wc : World, ((wc.mem.ipc p).vecs 1).len = 512 →
      (env.ioctlv wc rh FSACommand.ReadFile 1 2 (p + 0x520 + d.sizeof_FSAResponse)).error = 512 ∧
      ∀ i : Fin 512,
        (env.ioctlv wc rh FSACommand.ReadFile 1 2 (p + 0x520 + d.sizeof_FSAResponse)).mem.bytes
          (((wc.mem.ipc p).vecs 1).paddr + i.val) = pattern i) :
    ∃ w', FSAReadFile d env w rh buffer 512 1 7 flags = some (512, w') ∧
      (∀ i : Fin 512, w'.mem.bytes (buffer + i.val) = pattern i) ∧
      (512 : Int) ≠ d.OK ∧ ¬ (512 : Int) < d.OK := by
  obtain ⟨m, N, w', h1, -, -, h4, h5, -, -, -, v1, -⟩ :=
    FSAReadFile_ok d env w rh buffer 512 1 7 flags p hA
  rw [sizeof_FSARequest_eq] at h4 h5
  have hlen : (((atCall d w p m).mem.ipc p).vecs 1).len = 512 := by
    show ((m.ipc p).vecs 1).len = 512
    rw [v1]
    rfl
  have hpaddr : (((atCall d w p m).mem.ipc p).vecs 1).paddr = buffer := by
    show ((m.ipc p).vecs 1).paddr = buffer
    rw [v1]
  obtain ⟨he, hb⟩ := hT (atCall d w p m) hlen
  rw [he] at h4
  subst h4
  refine ⟨w', h1, ?_, ?_, ?_⟩
  · intro i
    rw [h5, ← hpaddr]
    exact hb i
  · rw [hOK]; norm_num
  · rw [hOK]; norm_num

theorem FSAReadFile_end_to_end_witness :
    mockDecls.OK = 0 ∧
    (patternEnv (fun i => i % 251)).heapAlloc mockWorld mockDecls.CrossProcessHeapId
      (sizeof_FSAIpcData mockDecls) = some 0x1000 ∧
    ∃ w', FSAReadFile mockDecls (patternEnv (fun i => i % 251)) mockWorld 1 0x3000 512 1 7 0 =
        some (512, w') ∧
      (∀ i : Fin 512, w'.mem.bytes (0x3000 + i.val) = testPattern i) ∧
      (512 : Int) ≠ mockDecls.OK ∧ ¬ (512 : Int) < mockDecls.OK :=
  ⟨rfl, rfl, FSAReadFile_end_to_end mockDecls (patternEnv (fun i => i % 251)) mockWorld 1 0x3000 0
    0x1000 testPattern rfl rfl (by
      intro wc hlen
      refine ⟨rfl, ?_⟩
      intro i
      have hi := i.isLt
      have e : 0x1000 + 0x520 + mockDecls.sizeof_FSAResponse - (0x520 + 0x293) = 0x1000 := rfl
      simp only [patternEnv, e, fillBytes, hlen, testPattern]
      rw [if_pos ⟨Nat.le_add_right _ _, by omega⟩, Nat.add_sub_cancel_left])⟩

/-- C13 as stated fails: with a transport that fills the destination vector with the pattern
`i mod 251` and returns 512, `FSAReadFile` (size 512, count 1, handle 7) leaves the pattern in
the destination buffer at 0x3000 and returns 512, which is not the status `OK` = 0. -/
theorem FSAReadFile_returns_count_not_OK :
    ∃ w', FSAReadFile mockDecls (patternEnv (fun i => i % 251)) mockWorld 1 0x3000 512 1 7 0 =
        some (512, w') ∧
      w'.mem.bytes 0x3000 = 0 ∧ w'.mem.bytes (0x3000 + 300) = 49 ∧
      w'.mem.bytes (0x3000 + 511) = 9 ∧ w'.mem.bytes (0x3000 + 512) = 0xAA ∧
      mockDecls.OK = 0 ∧ (512 : Int) ≠ mockDecls.OK :=
  ⟨_, rfl, by decide, by decide, by decide, by decide, rfl, by decide⟩

end ios.fs

namespace gx2

/-! ## The null display-list recorder -/

end gx2
